import Mathlib

/-! # EdgeTX colour-LCD SD manager, model menu and monochrome popups

A shallow embedding of

* `radio/src/gui/colorlcd/radio_sdmanager.cpp` (directory listing, paste, rename),
* `radio/src/gui/colorlcd/menu_model.cpp` (tab registration),
* `radio/src/gui/common/stdlcd/popups.cpp` (popup menu and popup warning),

followed by the properties proved about it.

Conventions.  A C string is the list of its characters before the terminating
NUL.  Machine integers are naturals or integers with the wrap-around written
out.  Calls into the file system and the widget toolkit are recorded, in
program order, in a list of `Call`s.
-/

namespace EdgeTX

/-- A C string: the characters that precede the terminating NUL. -/
abbrev CString := List Char

/-- The character `s[i]` of a C string; the terminator reads as NUL. -/
def charAt (s : CString) (i : Nat) : Char := s.getD i (Char.ofNat 0)

/-! ## FatFs interface used by the SD manager -/

/-- FatFs result code `FR_OK`. -/
def FR_OK : Nat := 0

/-- FatFs attribute bit `AM_DIR`. -/
def AM_DIR : Nat := 0x10

/-- The two fields of FatFs `FILINFO` that the SD manager reads. -/
structure FILINFO where
  fname : CString
  fattrib : Nat
deriving DecidableEq, Repr

/-- The SD card as seen by one run of `RadioSdManagerPage::build`: the result
of `f_opendir`, and the successive answers of `sdReadDir` (result code and the
`FILINFO` left in `fno`).  Past the last scripted answer `sdReadDir` reports the
end of the directory (`FR_OK` with an empty name). -/
structure SdCard where
  f_opendir : Nat
  sdReadDir : List (Nat × FILINFO)
deriving DecidableEq, Repr

/-! ## `RadioSdManagerPage::build` -/

/-- One call made on the local `FormGridLayout grid`. -/
inductive GridCall
  | spacer_PAGE_PADDING
  | nextLine
deriving DecidableEq, Repr

/-- The class `FormGridLayout` belongs to the widget toolkit; a grid is kept as
the calls made on it so far, oldest first.  `grid.getLabelSlot()` and
`grid.getWindowHeight()` are functions of that history. -/
abbrev FormGridLayout := List GridCall

/-- The calls `build` makes on the file system and on the window, in order. -/
inductive Call
  | getCurrentPath
  | newFilePreview
  | f_opendir
  | sdReadDir
  /-- The directory loop: `new SDmanagerButton(window, slot, name, ...)`. -/
  | newDirectoryButton (slot : FormGridLayout) (name : CString)
  /-- The file loop: `new SDmanagerButton(window, slot, name, ...)`. -/
  | newFileButton (slot : FormGridLayout) (name : CString)
  /-- The file loop: `button->setFocusHandler(...)`. -/
  | setFocusHandler (name : CString)
  /-- The call `window->setInnerHeight(grid.getWindowHeight())`. -/
  | setInnerHeight (grid : FormGridLayout)
  /-- The call `preview->setHeight(max(window->height(), grid.getWindowHeight()))`. -/
  | previewSetHeight (grid : FormGridLayout)
deriving DecidableEq, Repr

/-- Locals of `build` together with the calls made so far. -/
structure BuildState where
  calls : List Call
  grid : FormGridLayout
  files : List CString
  directories : List CString
deriving DecidableEq, Repr

/-- Loop exit test: `res != FR_OK || fno.fname[0] == 0`. -/
def breaksLoop (e : Nat × FILINFO) : Bool :=
  e.1 != FR_OK || charAt e.2.fname 0 == Char.ofNat 0

/-- First skip test: `strlen(fno.fname) > SD_SCREEN_FILE_LENGTH`. -/
def tooLong (SD_SCREEN_FILE_LENGTH : Nat) (fno : FILINFO) : Bool :=
  decide (fno.fname.length > SD_SCREEN_FILE_LENGTH)

/-- Second skip test: `fno.fname[0] == '.' && fno.fname[1] != '.'`. -/
def skippedAsHidden (fno : FILINFO) : Bool :=
  charAt fno.fname 0 == '.' && charAt fno.fname 1 != '.'

/-- Directory test: `fno.fattrib & AM_DIR`. -/
def isDirectory (fno : FILINFO) : Bool :=
  Nat.land fno.fattrib AM_DIR != 0

/-- The `for (;;)` loop of `build` over the answers of `sdReadDir`. -/
def readLoop (SD_SCREEN_FILE_LENGTH : Nat) : List (Nat × FILINFO) → BuildState → BuildState
  | [], st => { st with calls := st.calls ++ [Call.sdReadDir] }
  | e :: rest, st =>
    let st1 := { st with calls := st.calls ++ [Call.sdReadDir] }
    if breaksLoop e then st1
    else if tooLong SD_SCREEN_FILE_LENGTH e.2 then readLoop SD_SCREEN_FILE_LENGTH rest st1
    else if skippedAsHidden e.2 then readLoop SD_SCREEN_FILE_LENGTH rest st1
    else if isDirectory e.2 then
      readLoop SD_SCREEN_FILE_LENGTH rest { st1 with directories := st1.directories ++ [e.2.fname] }
    else
      readLoop SD_SCREEN_FILE_LENGTH rest { st1 with files := st1.files ++ [e.2.fname] }

/-- The call `std::list<std::string>::sort(comp)`: a stable merge sort whose
merge step takes the head of the right run only when `comp(right, left)`. -/
def list_sort (comp : CString → CString → Bool) (l : List CString) : List CString :=
  l.mergeSort (fun a b => !comp b a)

/-- Body of `for (auto name: directories)`. -/
def directoryButton (st : BuildState) (name : CString) : BuildState :=
  { st with calls := st.calls ++ [Call.newDirectoryButton st.grid name],
            grid := st.grid ++ [GridCall.nextLine] }

/-- Body of `for (auto name: files)`. -/
def fileButton (st : BuildState) (name : CString) : BuildState :=
  { st with calls := st.calls ++ [Call.newFileButton st.grid name, Call.setFocusHandler name],
            grid := st.grid ++ [GridCall.nextLine] }

/-- The function `RadioSdManagerPage::build`, as the list of calls it makes.
`compare_nocase` is declared `extern` in the source and is a parameter, as is
the constant `SD_SCREEN_FILE_LENGTH`. -/
def build (SD_SCREEN_FILE_LENGTH : Nat) (compare_nocase : CString → CString → Bool)
    (sd : SdCard) : List Call :=
  let st0 : BuildState :=
    { calls := [Call.getCurrentPath, Call.newFilePreview, Call.f_opendir],
      grid := [GridCall.spacer_PAGE_PADDING], files := [], directories := [] }
  let st4 :=
    if sd.f_opendir = FR_OK then
      let st1 := readLoop SD_SCREEN_FILE_LENGTH sd.sdReadDir st0
      let st2 := { st1 with directories := list_sort compare_nocase st1.directories,
                            files := list_sort compare_nocase st1.files }
      let st3 := st2.directories.foldl directoryButton st2
      st3.files.foldl fileButton st3
    else st0
  st4.calls ++ [Call.setInnerHeight st4.grid, Call.previewSetHeight st4.grid]

/-- An entry button shown in the window. -/
inductive Button
  | directory (name : CString)
  | file (name : CString)
deriving DecidableEq, Repr

/-- The button, if any, that a call creates. -/
def Call.button : Call → Option Button
  | Call.newDirectoryButton _ name => some (Button.directory name)
  | Call.newFileButton _ name => some (Button.file name)
  | _ => none

/-- The entry buttons created by a run, in creation order. -/
def buttons (calls : List Call) : List Button := calls.filterMap Call.button

/-- The name shown on a button. -/
def Button.name : Button → CString
  | Button.directory n => n
  | Button.file n => n

/-- Number of `sdReadDir` calls in a run. -/
def readCalls (calls : List Call) : Nat := calls.count Call.sdReadDir

/-- The entries read before the loop breaks. -/
def readEntries (script : List (Nat × FILINFO)) : List FILINFO :=
  (script.takeWhile (fun e => !breaksLoop e)).map Prod.snd

/-- An entry that passes both skip tests. -/
def accepted (SD_SCREEN_FILE_LENGTH : Nat) (fno : FILINFO) : Bool :=
  !tooLong SD_SCREEN_FILE_LENGTH fno && !skippedAsHidden fno

/-! ## `ModelMenu::ModelMenu` -/

/-- The pages the constructor can register, named after their classes. -/
inductive Tab
  | ModelSetupPage
  | ModelHeliPage
  | ModelFlightModesPage
  | ModelInputsPage
  | ModelMixesPage
  | ModelOutputsPage
  | ModelCurvesPage
  | ModelGVarsPage
  | ModelLogicalSwitchesPage
  | SpecialFunctionsPage
  | ModelMixerScriptsPage
  | ModelTelemetryPage
deriving DecidableEq, Repr

/-- The preprocessor symbols tested by the constructor (`true` = defined). -/
structure ModelMenuFlags where
  HELI : Bool
  FLIGHT_MODES : Bool
  GVARS : Bool
  LUA_MODEL_SCRIPTS : Bool
deriving DecidableEq, Repr

/-- The call `addTab(page)`: the page is appended to the tabs of the group. -/
def addTab (tabs : List Tab) (page : Tab) : List Tab := tabs ++ [page]

/-- A tab registered under `#if defined(FLAG)`. -/
def addTabIf (flag : Bool) (tabs : List Tab) (page : Tab) : List Tab :=
  if flag then addTab tabs page else tabs

/-- The constructor `ModelMenu::ModelMenu`: the tabs of the group when it returns. -/
def ModelMenu (f : ModelMenuFlags) : List Tab :=
  let t := addTab [] Tab.ModelSetupPage
  let t := addTabIf f.HELI t Tab.ModelHeliPage
  let t := addTabIf f.FLIGHT_MODES t Tab.ModelFlightModesPage
  let t := addTab t Tab.ModelInputsPage
  let t := addTab t Tab.ModelMixesPage
  let t := addTab t Tab.ModelOutputsPage
  let t := addTab t Tab.ModelCurvesPage
  let t := addTabIf f.GVARS t Tab.ModelGVarsPage
  let t := addTab t Tab.ModelLogicalSwitchesPage
  let t := addTab t Tab.SpecialFunctionsPage
  let t := addTabIf f.LUA_MODEL_SCRIPTS t Tab.ModelMixerScriptsPage
  addTab t Tab.ModelTelemetryPage

/-- Number of symbols that are defined. -/
def ModelMenuFlags.defined (f : ModelMenuFlags) : Nat :=
  f.HELI.toNat + f.FLIGHT_MODES.toNat + f.GVARS.toNat + f.LUA_MODEL_SCRIPTS.toNat

/-! ## The Paste action of the file menu -/

/-- The SD part of the clipboard, `clipboard.data.sd`. -/
structure SdClipboard where
  directory : CString
  filename : CString
deriving DecidableEq, Repr

/-- The arrays `destNamePtr` can point to. -/
inductive NameObject
  /-- The array `clipboard.data.sd.filename`, which lives as long as the program. -/
  | clipboardFilename
  /-- The array `destFileName`, declared inside the block of the `if`: its
  lifetime ends where that block ends. -/
  | destFileName
deriving DecidableEq, Repr

/-- A `char *` to the start of one of these arrays, with the text that the
array holds while it is alive. -/
structure NamePtr where
  object : NameObject
  text : CString
deriving DecidableEq, Repr

/-- The C string read through a name pointer after the block of the `if` has
been left: the text of an array that is still alive, and nothing that the
language defines (`none`) for the array local to the block. -/
def NamePtr.readAfterBlock (p : NamePtr) : Option CString :=
  match p.object with
  | NameObject.clipboardFilename => some p.text
  | NameObject.destFileName => none

/-- The call `sdCopyFile(srcFilename, srcDir, destNamePtr, destDir)`: its
arguments, and the destination name the callee reads through `destNamePtr`. -/
structure SdCopyFile where
  srcFilename : CString
  srcDir : CString
  destNamePtr : NamePtr
  destFilename : Option CString
  destDir : CString
deriving DecidableEq, Repr

/-- The `STR_PASTE` handler up to its call of `sdCopyFile`; `lfn` is the current
directory as left in the buffer by `f_getcwd`.  `destNamePtr` starts at
`clipboard.data.sd.filename`; in the block of the `if` the name is built in the
local array `destFileName` and `destNamePtr` is set to that array; the call of
`sdCopyFile` comes after the block.  The helper `strAppend` is defined outside
these sources and is a parameter: `strAppend dest source len` takes the text
already in the buffer before the position `dest` and gives the text before the
position it returns.  The constants `FILE_COPY_PREFIX` (here `copyPrefix`) and
`CLIPBOARD_PATH_LEN` are parameters too. -/
def pasteHandler (strAppend : CString → CString → Nat → CString)
    (copyPrefix : CString) (CLIPBOARD_PATH_LEN : Nat)
    (clipboard : SdClipboard) (lfn : CString) : SdCopyFile :=
  let destNamePtr : NamePtr :=
    { object := NameObject.clipboardFilename, text := clipboard.filename }
  let destNamePtr : NamePtr :=
    if clipboard.directory = lfn then
      let destFileName := strAppend [] copyPrefix CLIPBOARD_PATH_LEN
      let destFileName := strAppend destFileName clipboard.filename CLIPBOARD_PATH_LEN
      { object := NameObject.destFileName, text := destFileName }
    else destNamePtr
  { srcFilename := clipboard.filename, srcDir := clipboard.directory,
    destNamePtr := destNamePtr, destFilename := destNamePtr.readAfterBlock, destDir := lfn }

/-- The contract of a bounded append: a source shorter than `len` is copied
whole, right after the text at `dest`. -/
def BoundedAppend (strAppend : CString → CString → Nat → CString) : Prop :=
  ∀ dest source len, source.length < len → strAppend dest source len = dest ++ source

/-- A bounded append that copies at most `len` characters. -/
def strAppendTake (dest : CString) (source : CString) (len : Nat) : CString :=
  dest ++ source.take len

/-! ## `FileNameEditWindow` -/

/-- What `getFileExtension(name, 0, 0, &nameLength, &extLength)` hands back:
the returned pointer as an offset into `name` (`none` for `nullptr`) and the
two `uint8_t` outputs.  The function itself is defined outside these sources. -/
structure FileExtension where
  ext : Option Nat
  nameLength : Nat
  extLength : Nat
deriving DecidableEq, Repr

/-- The call `strncpy(dst, src, n)` into a buffer that holds NUL after the
copied characters: the text found at `dst` afterwards. -/
def strncpy (src : CString) (n : Nat) : CString := src.take n

/-- What `buildBody` leaves behind for the text field and its change handler. -/
structure FileNameEdit where
  /-- Content of `reusableBuffer.sdManager.originalName` when the field opens. -/
  originalName : CString
  /-- The local `extension`. -/
  extension : CString
  /-- The local `extLength` as captured by the handler. -/
  extLength : Nat
  /-- The length given to the `TextEdit`. -/
  editLength : Int
deriving DecidableEq, Repr

/-- The function `FileNameEditWindow::buildBody` up to the creation of the text
field.  `nameLength`, `extLength` and `maxNameLength` are `uint8_t`. -/
def buildBody (SD_SCREEN_FILE_LENGTH LEN_FILE_EXTENSION_MAX : Nat) (name : CString)
    (r : FileExtension) : FileNameEdit :=
  let nameLength := r.nameLength % 256
  let extLength := r.extLength % 256
  let extLength := if extLength > LEN_FILE_EXTENSION_MAX then LEN_FILE_EXTENSION_MAX % 256 else extLength
  let extension := match r.ext with
    | some i => strncpy (name.drop i) extLength
    | none => []
  let maxNameLength := (((SD_SCREEN_FILE_LENGTH : Int) - extLength) % 256).toNat
  let nameLength := (((nameLength : Int) - extLength) % 256).toNat
  let nameLength := if nameLength > maxNameLength then maxNameLength else nameLength
  let originalName := (strncpy name nameLength).take nameLength
  { originalName := originalName, extension := extension, extLength := extLength,
    editLength := (SD_SCREEN_FILE_LENGTH : Int) - extLength }

/-- The change handler of the text field: the two arguments of `f_rename`, given
the text `newValue` now in `reusableBuffer.sdManager.originalName`. -/
def changeHandler (name : CString) (w : FileNameEdit) (newValue : CString) : CString × CString :=
  let totalSize := newValue.length
  let changedName := (strncpy newValue totalSize).take totalSize
  let changedName :=
    if w.extLength ≠ 0 then changedName.take totalSize ++ strncpy w.extension w.extLength
    else changedName
  let changedName := changedName.take (totalSize + w.extLength)
  (name, changedName)

/-- The contract of `getFileExtension` that the rename window relies on: the
name length is reported, and a reported extension of length `extLength` is
the tail of `name` of that length, with the returned pointer at its start. -/
def ReportsExtension (name : CString) (r : FileExtension) : Prop :=
  r.nameLength = name.length ∧ r.extLength ≤ name.length ∧
    (r.extLength ≠ 0 → r.ext = some (name.length - r.extLength))

instance (name : CString) (r : FileExtension) : Decidable (ReportsExtension name r) := by
  unfold ReportsExtension; infer_instance

/-! ## Events -/

/-- The event codes tested in `popups.cpp`; every other code is `other`. -/
inductive Event
  | EVT_KEY_FIRST_KEY_UP
  | EVT_KEY_REPT_KEY_UP
  | EVT_KEY_FIRST_KEY_DOWN
  | EVT_KEY_REPT_KEY_DOWN
  | EVT_KEY_BREAK_KEY_ENTER
  | EVT_KEY_BREAK_KEY_EXIT
  | EVT_ROTARY_LEFT
  | EVT_ROTARY_RIGHT
  | EVT_ROTARY_BREAK
  | EVT_ROTARY_LONG
  | other (code : Nat)
deriving DecidableEq, Repr

/-! ## `runPopupMenu` -/

/-- Build configuration of `popups.cpp`: preprocessor symbols (`true` =
defined) and the constants that come from headers. -/
structure PopupConfig where
  ROTARY_ENCODER_NAVIGATION : Bool
  SDCARD : Bool
  CASE_EVT_ROTARY_BREAK : Bool
  CASE_EVT_ROTARY_LONG : Bool
  MENU_MAX_DISPLAY_LINES : Nat
  MENU_OFFSET_INTERNAL : Nat
  STR_UPDATE_LIST : String
  STR_OK : String
  STR_EXIT : String

/-- The globals of the popup menu.  A `const char *` is an `Option String`,
`none` being the null pointer. -/
structure PopupMenu where
  popupMenuOffsetType : Nat
  popupMenuItems : Nat → Option String
  s_menu_item : Nat
  popupMenuItemsCount : Nat
  popupMenuOffset : Nat
  popupMenuTitle : Option String

/-- The `case` group of the `switch` in `runPopupMenu` that an event selects. -/
inductive MenuCase
  | up
  | down
  | enter
  | rotaryLong
  | exit
  | unhandled
deriving DecidableEq, Repr

/-- Dispatch of the `switch (event)` in `runPopupMenu`. -/
def menuCase (cfg : PopupConfig) : Event → MenuCase
  | Event.EVT_ROTARY_LEFT => if cfg.ROTARY_ENCODER_NAVIGATION then MenuCase.up else MenuCase.unhandled
  | Event.EVT_KEY_FIRST_KEY_UP => MenuCase.up
  | Event.EVT_KEY_REPT_KEY_UP => MenuCase.up
  | Event.EVT_ROTARY_RIGHT => if cfg.ROTARY_ENCODER_NAVIGATION then MenuCase.down else MenuCase.unhandled
  | Event.EVT_KEY_FIRST_KEY_DOWN => MenuCase.down
  | Event.EVT_KEY_REPT_KEY_DOWN => MenuCase.down
  | Event.EVT_ROTARY_BREAK => if cfg.CASE_EVT_ROTARY_BREAK then MenuCase.enter else MenuCase.unhandled
  | Event.EVT_KEY_BREAK_KEY_ENTER => MenuCase.enter
  | Event.EVT_ROTARY_LONG => if cfg.CASE_EVT_ROTARY_LONG then MenuCase.rotaryLong else MenuCase.unhandled
  | Event.EVT_KEY_BREAK_KEY_EXIT => MenuCase.exit
  | Event.other _ => MenuCase.unhandled

/-- What one call of `runPopupMenu` produces. -/
structure PopupMenuRun where
  /-- The returned pointer. -/
  result : Option String
  /-- The globals after the call. -/
  menu : PopupMenu
  /-- The item rows drawn, top to bottom: the text, and whether the row got the
  solid highlight rectangle. -/
  rows : List (Option String × Bool)
  /-- The calls of `killEvents`, in order. -/
  killEvents : List Event

/-- The local `display_count`: `min<uint8_t>(popupMenuItemsCount, MENU_MAX_DISPLAY_LINES)`. -/
def displayCount (cfg : PopupConfig) (m : PopupMenu) : Nat :=
  min (m.popupMenuItemsCount % 256) (cfg.MENU_MAX_DISPLAY_LINES % 256)

/-- The offset added to a row index when reading `popupMenuItems`:
`popupMenuOffsetType == MENU_OFFSET_INTERNAL ? popupMenuOffset : 0`. -/
def itemBase (cfg : PopupConfig) (m : PopupMenu) : Nat :=
  if m.popupMenuOffsetType = cfg.MENU_OFFSET_INTERNAL then m.popupMenuOffset else 0

/-- The statements under `case EVT_KEY_BREAK(KEY_EXIT)`. -/
def closeMenu (m : PopupMenu) : PopupMenu :=
  { m with popupMenuItemsCount := 0, s_menu_item := 0, popupMenuOffset := 0,
           popupMenuTitle := none }

/-- The function `runPopupMenu`.  Of the drawing only the item rows are kept;
the frame, title and scrollbar do not touch the globals or the result.
`s_menu_item` and `display_count` are `uint8_t`, `popupMenuItemsCount` and
`popupMenuOffset` are `uint16_t`, and the arithmetic in the conditions is `int`. -/
def runPopupMenu (cfg : PopupConfig) (event : Event) (m : PopupMenu) : PopupMenuRun :=
  let display_count := displayCount cfg m
  let rows := (List.range display_count).map
    (fun i => (m.popupMenuItems (i + itemBase cfg m), decide (i = m.s_menu_item)))
  match menuCase cfg event with
  | MenuCase.up =>
    if m.s_menu_item > 0 then
      { result := none, menu := { m with s_menu_item := m.s_menu_item - 1 },
        rows := rows, killEvents := [] }
    else if cfg.SDCARD && decide (m.popupMenuOffset > 0) then
      { result := some cfg.STR_UPDATE_LIST,
        menu := { m with popupMenuOffset := m.popupMenuOffset - 1 },
        rows := rows, killEvents := [] }
    else
      let item := (((min display_count (cfg.MENU_MAX_DISPLAY_LINES % 256) : Nat) : Int) - 1) % 256
      let m1 := { m with s_menu_item := item.toNat }
      if cfg.SDCARD && decide (m.popupMenuItemsCount > cfg.MENU_MAX_DISPLAY_LINES) then
        { result := some cfg.STR_UPDATE_LIST,
          menu := { m1 with popupMenuOffset :=
            ((((m.popupMenuItemsCount : Int) - display_count) % 65536)).toNat },
          rows := rows, killEvents := [] }
      else { result := none, menu := m1, rows := rows, killEvents := [] }
  | MenuCase.down =>
    if (m.s_menu_item : Int) < (display_count : Int) - 1
        ∧ m.popupMenuOffset + m.s_menu_item + 1 < m.popupMenuItemsCount then
      { result := none, menu := { m with s_menu_item := (m.s_menu_item + 1) % 256 },
        rows := rows, killEvents := [] }
    else if cfg.SDCARD && decide (m.popupMenuItemsCount > m.popupMenuOffset + display_count) then
      { result := some cfg.STR_UPDATE_LIST,
        menu := { m with popupMenuOffset := (m.popupMenuOffset + 1) % 65536 },
        rows := rows, killEvents := [] }
    else
      let m1 := { m with s_menu_item := 0 }
      if cfg.SDCARD && decide (m.popupMenuOffset ≠ 0) then
        { result := some cfg.STR_UPDATE_LIST, menu := { m1 with popupMenuOffset := 0 },
          rows := rows, killEvents := [] }
      else { result := none, menu := m1, rows := rows, killEvents := [] }
  | MenuCase.enter =>
    { result := m.popupMenuItems (m.s_menu_item + itemBase cfg m),
      menu := closeMenu m, rows := rows,
      killEvents := if cfg.CASE_EVT_ROTARY_LONG then [event] else [] }
  | MenuCase.rotaryLong =>
    { result := none, menu := closeMenu m, rows := rows, killEvents := [event] }
  | MenuCase.exit =>
    { result := none, menu := closeMenu m, rows := rows, killEvents := [] }
  | MenuCase.unhandled =>
    { result := none, menu := m, rows := rows, killEvents := [] }

/-! ## `runPopupWarning` -/

/-- The values of `warningType` named in `popups.cpp`; any other enumerator is `other`. -/
inductive WarningType
  | WARNING_TYPE_ASTERISK
  | WARNING_TYPE_CONFIRM
  | WARNING_TYPE_INFO
  | other (n : Nat)
deriving DecidableEq, Repr

/-- The globals of the popup warning. -/
structure PopupWarning where
  warningText : Option String
  warningType : WarningType
  warningResult : Bool
deriving DecidableEq, Repr

/-- What one call of `runPopupWarning` produces. -/
structure PopupWarningRun where
  /-- The globals after the call. -/
  warning : PopupWarning
  /-- The arguments of the calls of `popupMenuHandler`, in order. -/
  handlerCalls : List String
deriving DecidableEq, Repr

/-- The statement `if (popupMenuHandler) popupMenuHandler(arg);`.  The handler is
a function pointer (`none` = null); a handler may change the globals. -/
def callHandler (popupMenuHandler : Option (String → PopupWarning → PopupWarning))
    (arg : String) (r : PopupWarningRun) : PopupWarningRun :=
  match popupMenuHandler with
  | some h => { warning := h arg r.warning, handlerCalls := r.handlerCalls ++ [arg] }
  | none => r

/-- The statements under `case EVT_KEY_BREAK(KEY_EXIT)` of `runPopupWarning`. -/
def warningExit (cfg : PopupConfig)
    (popupMenuHandler : Option (String → PopupWarning → PopupWarning))
    (r : PopupWarningRun) : PopupWarningRun :=
  let r1 :=
    if r.warning.warningType = WarningType.WARNING_TYPE_CONFIRM then
      callHandler popupMenuHandler cfg.STR_EXIT r
    else r
  { r1 with warning := { r1.warning with warningText := none,
                                          warningType := WarningType.WARNING_TYPE_ASTERISK } }

/-- The function `runPopupWarning`; the drawing of the box and of its texts
does not touch the globals and is left out. -/
def runPopupWarning (cfg : PopupConfig)
    (popupMenuHandler : Option (String → PopupWarning → PopupWarning))
    (event : Event) (w : PopupWarning) : PopupWarningRun :=
  let r0 : PopupWarningRun := { warning := { w with warningResult := false }, handlerCalls := [] }
  match event with
  | Event.EVT_KEY_BREAK_KEY_ENTER =>
    if r0.warning.warningType = WarningType.WARNING_TYPE_ASTERISK then r0
    else if r0.warning.warningType = WarningType.WARNING_TYPE_CONFIRM then
      let r1 := { r0 with warning := { r0.warning with
        warningType := WarningType.WARNING_TYPE_ASTERISK, warningText := none,
        warningResult := true } }
      callHandler popupMenuHandler cfg.STR_OK r1
    else warningExit cfg popupMenuHandler r0
  | Event.EVT_KEY_BREAK_KEY_EXIT => warningExit cfg popupMenuHandler r0
  | _ => r0

/-! ## Vocabulary of the statements -/

/-- A strict weak ordering, as `std::list::sort` requires of its comparator:
irreflexive, transitive, and with a transitive incomparability relation. -/
structure StrictWeakOrder (comp : CString → CString → Bool) : Prop where
  irrefl : ∀ a, comp a a = false
  trans : ∀ a b c, comp a b = true → comp b c = true → comp a c = true
  incomp_trans : ∀ a b c, comp a b = false → comp b a = false →
    comp b c = false → comp c b = false → comp a c = false ∧ comp c a = false

/-- The entries handed to `build` by `sdReadDir` before the loop breaks; none
when the directory could not be opened. -/
def entriesRead (sd : SdCard) : List FILINFO :=
  if sd.f_opendir = FR_OK then readEntries sd.sdReadDir else []

/-- A comparator used in examples: shorter names first. -/
def shorterFirst (a b : CString) : Bool := decide (a.length < b.length)

/-- A card used in examples: the parent entry, a hidden file, a directory, two
files, then a read error followed by one more entry. -/
def sampleCard : SdCard :=
  { f_opendir := FR_OK,
    sdReadDir :=
      [(FR_OK, { fname := ['.', '.'], fattrib := 0x10 }),
       (FR_OK, { fname := ['.', 'h'], fattrib := 0x20 }),
       (FR_OK, { fname := ['L', 'O', 'G', 'S'], fattrib := 0x10 }),
       (FR_OK, { fname := ['b', '.', 't', 'x', 't'], fattrib := 0x20 }),
       (FR_OK, { fname := ['a'], fattrib := 0x20 }),
       (1, { fname := ['a'], fattrib := 0x20 }),
       (FR_OK, { fname := ['z'], fattrib := 0x20 })] }

/-- A build configuration used in examples. -/
def sampleConfig : PopupConfig :=
  { ROTARY_ENCODER_NAVIGATION := true, SDCARD := true, CASE_EVT_ROTARY_BREAK := true,
    CASE_EVT_ROTARY_LONG := true, MENU_MAX_DISPLAY_LINES := 6, MENU_OFFSET_INTERNAL := 0,
    STR_UPDATE_LIST := "STR_UPDATE_LIST", STR_OK := "STR_OK", STR_EXIT := "STR_EXIT" }

/-- A popup menu used in examples: ten items, scrolled by 3, third row selected. -/
def sampleMenu : PopupMenu :=
  { popupMenuOffsetType := 0, popupMenuItems := fun i => some (toString i),
    s_menu_item := 2, popupMenuItemsCount := 10, popupMenuOffset := 3,
    popupMenuTitle := none }

/-- The absolute index of the selected item: `popupMenuOffset + s_menu_item`. -/
def selectedIndex (m : PopupMenu) : Nat := m.popupMenuOffset + m.s_menu_item

/-- The globals after `runPopupMenu` has been called once for each event of a
list, in order. -/
def runPopupMenuEvents (cfg : PopupConfig) (events : List Event) (m : PopupMenu) : PopupMenu :=
  events.foldl (fun s e => (runPopupMenu cfg e s).menu) m

/-- The predicate of the navigation statements, with `n = popupMenuItemsCount`:
`s_menu_item < min(n, MENU_MAX_DISPLAY_LINES)` and
`popupMenuOffset + min(n, MENU_MAX_DISPLAY_LINES) <= n`. -/
def MenuInRange (cfg : PopupConfig) (m : PopupMenu) : Prop :=
  m.s_menu_item < min m.popupMenuItemsCount cfg.MENU_MAX_DISPLAY_LINES
    ∧ m.popupMenuOffset + min m.popupMenuItemsCount cfg.MENU_MAX_DISPLAY_LINES
        ≤ m.popupMenuItemsCount

instance (cfg : PopupConfig) (m : PopupMenu) : Decidable (MenuInRange cfg m) := by
  unfold MenuInRange; infer_instance

/-- An event that does not close the popup menu: `KEY_UP`, `KEY_DOWN` (first
press or repeat, or the rotary encoder when it navigates) or an event the
`switch` does not handle. -/
def keepsMenuOpen (cfg : PopupConfig) (e : Event) : Prop :=
  menuCase cfg e = MenuCase.up ∨ menuCase cfg e = MenuCase.down
    ∨ menuCase cfg e = MenuCase.unhandled

instance (cfg : PopupConfig) (e : Event) : Decidable (keepsMenuOpen cfg e) := by
  unfold keepsMenuOpen; infer_instance

/-- A popup menu used in examples: ten items, top of the list, first row selected. -/
def sampleMenuTop : PopupMenu :=
  { sampleMenu with s_menu_item := 0, popupMenuOffset := 0 }

/-- A handler used in examples: it opens a new popup and leaves `warningResult` alone. -/
def sampleHandler (_result : String) (v : PopupWarning) : PopupWarning :=
  { v with warningText := some "again" }

/-- A handler that writes `warningResult` itself: it sets it to true. -/
def overridingHandler (_result : String) (v : PopupWarning) : PopupWarning :=
  { v with warningResult := true }

end EdgeTX

/-! # Properties -/

namespace EdgeTX

/-! ## Helper lemmas: the read loop and the button loops -/

theorem readLoop_eq (SD : Nat) (script : List (Nat × FILINFO)) (st : BuildState) :
    readLoop SD script st =
      { calls := st.calls ++
          List.replicate ((script.takeWhile (fun e => !breaksLoop e)).length + 1) Call.sdReadDir,
        grid := st.grid,
        files := st.files ++
          ((readEntries script).filter (fun f => accepted SD f && !isDirectory f)).map FILINFO.fname,
        directories := st.directories ++
          ((readEntries script).filter (fun f => accepted SD f && isDirectory f)).map FILINFO.fname } := by
  induction script generalizing st with
  | nil => simp [readLoop, readEntries]
  | cons e rest ih =>
    unfold readLoop
    by_cases hb : breaksLoop e = true
    · simp [hb, readEntries]
    · have hb : breaksLoop e = false := by simpa using hb
      by_cases h1 : tooLong SD e.2 = true
      · simp [hb, h1, ih, readEntries, accepted, List.replicate_succ]
      · have h1 : tooLong SD e.2 = false := by simpa using h1
        by_cases h2 : skippedAsHidden e.2 = true
        · simp [hb, h1, h2, ih, readEntries, accepted, List.replicate_succ]
        · have h2 : skippedAsHidden e.2 = false := by simpa using h2
          by_cases h3 : isDirectory e.2 = true
          · simp [hb, h1, h2, h3, ih, readEntries, accepted, List.replicate_succ]
          · have h3 : isDirectory e.2 = false := by simpa using h3
            simp [hb, h1, h2, h3, ih, readEntries, accepted, List.replicate_succ]

theorem buttons_append (a b : List Call) : buttons (a ++ b) = buttons a ++ buttons b := by
  simp [buttons, List.filterMap_append]

theorem readCalls_append (a b : List Call) : readCalls (a ++ b) = readCalls a + readCalls b := by
  simp [readCalls, List.count_append]

theorem foldl_directoryButton_buttons (l : List CString) (st : BuildState) :
    buttons (l.foldl directoryButton st).calls = buttons st.calls ++ l.map Button.directory := by
  induction l generalizing st with
  | nil => simp
  | cons a l ih =>
    rw [List.foldl_cons, ih]
    simp [directoryButton, buttons_append, buttons, Call.button]

theorem foldl_directoryButton_files (l : List CString) (st : BuildState) :
    (l.foldl directoryButton st).files = st.files := by
  induction l generalizing st with
  | nil => simp
  | cons a l ih =>
    rw [List.foldl_cons, ih]
    simp [directoryButton]

theorem foldl_directoryButton_readCalls (l : List CString) (st : BuildState) :
    readCalls (l.foldl directoryButton st).calls = readCalls st.calls := by
  induction l generalizing st with
  | nil => simp
  | cons a l ih =>
    rw [List.foldl_cons, ih]
    simp [directoryButton, readCalls_append, readCalls]

theorem foldl_fileButton_buttons (l : List CString) (st : BuildState) :
    buttons (l.foldl fileButton st).calls = buttons st.calls ++ l.map Button.file := by
  induction l generalizing st with
  | nil => simp
  | cons a l ih =>
    rw [List.foldl_cons, ih]
    simp [fileButton, buttons_append, buttons, Call.button]

theorem foldl_fileButton_readCalls (l : List CString) (st : BuildState) :
    readCalls (l.foldl fileButton st).calls = readCalls st.calls := by
  induction l generalizing st with
  | nil => simp
  | cons a l ih =>
    rw [List.foldl_cons, ih]
    simp [fileButton, readCalls_append, readCalls]

/-- The buttons of a run: the sorted accepted directories, then the sorted
accepted files. -/
theorem buttons_build (SD : Nat) (comp : CString → CString → Bool) (sd : SdCard) :
    buttons (build SD comp sd) =
      (list_sort comp (((entriesRead sd).filter
          (fun f => accepted SD f && isDirectory f)).map FILINFO.fname)).map Button.directory ++
      (list_sort comp (((entriesRead sd).filter
          (fun f => accepted SD f && !isDirectory f)).map FILINFO.fname)).map Button.file := by
  unfold build entriesRead
  by_cases h : sd.f_opendir = FR_OK
  · simp only [h, if_true]
    rw [buttons_append, foldl_fileButton_buttons, foldl_directoryButton_files,
      foldl_directoryButton_buttons]
    simp [readLoop_eq, buttons, Call.button, List.filterMap_append, List.filterMap_replicate]
  · simp [h, buttons, Call.button, list_sort]

/-- The number of reads of a run that opened the directory. -/
theorem readCalls_build (SD : Nat) (comp : CString → CString → Bool)
    (script : List (Nat × FILINFO)) :
    readCalls (build SD comp { f_opendir := FR_OK, sdReadDir := script }) =
      (script.takeWhile (fun e => !breaksLoop e)).length + 1 := by
  unfold build
  simp only [if_true]
  rw [readCalls_append, foldl_fileButton_readCalls, foldl_directoryButton_readCalls]
  simp [readLoop_eq, readCalls, List.count_append, List.count_replicate]

/-! ## Helper lemmas: the sort -/

theorem StrictWeakOrder.asymm {comp : CString → CString → Bool} (h : StrictWeakOrder comp)
    (a b : CString) (hab : comp a b = true) : comp b a = false := by
  cases hba : comp b a with
  | false => rfl
  | true =>
    have haa := h.trans a b a hab hba
    rw [h.irrefl a] at haa
    exact absurd haa (by decide)

theorem StrictWeakOrder.not_lt_trans {comp : CString → CString → Bool} (h : StrictWeakOrder comp)
    (a b c : CString) (hba : comp b a = false) (hcb : comp c b = false) : comp c a = false := by
  cases hca : comp c a with
  | false => rfl
  | true =>
    cases hbc : comp b c with
    | true =>
      have := h.trans b c a hbc hca
      rw [hba] at this
      exact absurd this (by decide)
    | false =>
      cases hab : comp a b with
      | true =>
        have := h.trans c a b hca hab
        rw [hcb] at this
        exact absurd this (by decide)
      | false =>
        have := (h.incomp_trans a b c hab hba hbc hcb).2
        rw [hca] at this
        exact absurd this (by decide)

/-- Under a strict weak ordering the sorted list has no inversion. -/
theorem list_sort_pairwise {comp : CString → CString → Bool} (h : StrictWeakOrder comp)
    (l : List CString) : (list_sort comp l).Pairwise (fun a b => comp b a = false) := by
  have hs := @List.sorted_mergeSort CString (fun a b => !comp b a)
    (by
      intro a b c hab hbc
      simp only [Bool.not_eq_true'] at hab hbc ⊢
      exact h.not_lt_trans a b c hab hbc)
    (by
      intro a b
      cases hba : comp b a with
      | false => simp [hba]
      | true => simp [h.asymm b a hba])
    l
  unfold list_sort
  exact hs.imp (by intro a b hab; simpa using hab)

theorem list_sort_perm (comp : CString → CString → Bool) (l : List CString) :
    (list_sort comp l).Perm l :=
  List.mergeSort_perm l _

theorem shorterFirst_strictWeakOrder : StrictWeakOrder shorterFirst where
  irrefl := by intro a; simp [shorterFirst]
  trans := by
    intro a b c hab hbc
    simp only [shorterFirst, decide_eq_true_eq] at *
    omega
  incomp_trans := by
    intro a b c h1 h2 h3 h4
    simp only [shorterFirst, decide_eq_false_iff_not, not_lt] at *
    constructor <;> omega

/-! ## Helper lemmas: the names on the buttons -/

theorem accepted_eq (SD : Nat) :
    (fun f : FILINFO => decide (f.fname.length ≤ SD) && !skippedAsHidden f) = accepted SD := by
  funext f
  simp only [accepted, tooLong]
  by_cases hl : f.fname.length ≤ SD
  · simp [hl, Nat.not_lt.mpr hl]
  · simp [hl, Nat.lt_of_not_le hl]

theorem map_name_directory (l : List CString) :
    (l.map Button.directory).map Button.name = l := by
  rw [List.map_map]
  exact (List.map_congr_left (fun a _ => rfl)).trans (List.map_id l)

theorem map_name_file (l : List CString) : (l.map Button.file).map Button.name = l := by
  rw [List.map_map]
  exact (List.map_congr_left (fun a _ => rfl)).trans (List.map_id l)

/-- Splitting a list of entries into directories and files loses nothing. -/
theorem split_by_kind_perm (p : FILINFO → Bool) (l : List FILINFO) :
    (l.filter (fun f => p f && isDirectory f) ++ l.filter (fun f => p f && !isDirectory f)).Perm
      (l.filter p) := by
  have h1 : l.filter (fun f => p f && isDirectory f) = (l.filter p).filter isDirectory := by
    rw [List.filter_filter]
    congr 1
    funext f
    exact Bool.and_comm _ _
  have h2 : l.filter (fun f => p f && !isDirectory f)
      = (l.filter p).filter (fun f => !isDirectory f) := by
    rw [List.filter_filter]
    congr 1
    funext f
    exact Bool.and_comm _ _
  rw [h1, h2]
  exact List.filter_append_perm _ _

/-! ## C1: order of the entry buttons -/

/-- C1.  When `compare_nocase` is a strict weak ordering, the entry buttons made
by `build` are the accepted directory names followed by the accepted file
names of the entries read, and inside each group no button is followed (next
to it or later) by a name that `compare_nocase` puts before it. -/
theorem build_buttons_grouped_and_sorted (SD_SCREEN_FILE_LENGTH : Nat)
    (compare_nocase : CString → CString → Bool) (hswo : StrictWeakOrder compare_nocase)
    (sd : SdCard) :
    ∃ ds fs : List CString,
      buttons (build SD_SCREEN_FILE_LENGTH compare_nocase sd)
        = ds.map Button.directory ++ fs.map Button.file
      ∧ ds.Perm (((entriesRead sd).filter (fun f =>
          decide (f.fname.length ≤ SD_SCREEN_FILE_LENGTH) && !skippedAsHidden f
            && isDirectory f)).map FILINFO.fname)
      ∧ fs.Perm (((entriesRead sd).filter (fun f =>
          decide (f.fname.length ≤ SD_SCREEN_FILE_LENGTH) && !skippedAsHidden f
            && !isDirectory f)).map FILINFO.fname)
      ∧ ds.Chain' (fun a b => compare_nocase b a = false)
      ∧ fs.Chain' (fun a b => compare_nocase b a = false)
      ∧ ds.Pairwise (fun a b => compare_nocase b a = false)
      ∧ fs.Pairwise (fun a b => compare_nocase b a = false) := by
  have hacc : ∀ f : FILINFO, accepted SD_SCREEN_FILE_LENGTH f
      = (decide (f.fname.length ≤ SD_SCREEN_FILE_LENGTH) && !skippedAsHidden f) := by
    intro f
    simp only [accepted, tooLong]
    by_cases hl : f.fname.length ≤ SD_SCREEN_FILE_LENGTH
    · simp [hl, Nat.not_lt.mpr hl]
    · simp [hl, Nat.lt_of_not_le hl]
  refine ⟨_, _, buttons_build SD_SCREEN_FILE_LENGTH compare_nocase sd, ?_, ?_,
    (list_sort_pairwise hswo _).chain', (list_sort_pairwise hswo _).chain',
    list_sort_pairwise hswo _, list_sort_pairwise hswo _⟩
  · simp only [hacc]
    exact list_sort_perm _ _
  · simp only [hacc]
    exact list_sort_perm _ _

/-- C1 at the sample card, sorted by length. -/
theorem build_buttons_grouped_and_sorted_witness :
    StrictWeakOrder shorterFirst ∧
    ∃ ds fs : List CString,
      buttons (build 8 shorterFirst sampleCard)
        = ds.map Button.directory ++ fs.map Button.file
      ∧ ds.Perm (((entriesRead sampleCard).filter (fun f =>
          decide (f.fname.length ≤ 8) && !skippedAsHidden f
            && isDirectory f)).map FILINFO.fname)
      ∧ fs.Perm (((entriesRead sampleCard).filter (fun f =>
          decide (f.fname.length ≤ 8) && !skippedAsHidden f
            && !isDirectory f)).map FILINFO.fname)
      ∧ ds.Chain' (fun a b => shorterFirst b a = false)
      ∧ fs.Chain' (fun a b => shorterFirst b a = false)
      ∧ ds.Pairwise (fun a b => shorterFirst b a = false)
      ∧ fs.Pairwise (fun a b => shorterFirst b a = false) :=
  ⟨shorterFirst_strictWeakOrder,
    build_buttons_grouped_and_sorted 8 shorterFirst shorterFirst_strictWeakOrder sampleCard⟩

/-! ## C2: nothing lost, nothing added -/

/-- C2.  The names on the buttons made by `build` are, as a multiset, exactly
the names of the entries read whose length is at most `SD_SCREEN_FILE_LENGTH`
and that are not skipped as hidden. -/
theorem build_button_names_perm (SD_SCREEN_FILE_LENGTH : Nat)
    (compare_nocase : CString → CString → Bool) (sd : SdCard) :
    ((buttons (build SD_SCREEN_FILE_LENGTH compare_nocase sd)).map Button.name).Perm
      (((entriesRead sd).filter (fun f =>
          decide (f.fname.length ≤ SD_SCREEN_FILE_LENGTH) && !skippedAsHidden f)).map
        FILINFO.fname) := by
  rw [accepted_eq, buttons_build, List.map_append, map_name_directory, map_name_file]
  refine ((list_sort_perm _ _).append (list_sort_perm _ _)).trans ?_
  rw [← List.map_append]
  exact (split_by_kind_perm (accepted SD_SCREEN_FILE_LENGTH) (entriesRead sd)).map _

/-! ## C3: the directory cannot be opened -/

/-- C3.  When `f_opendir` does not return `FR_OK`, `build` makes exactly these
calls: the current path, the preview, `f_opendir`, and the two height calls on
the grid that holds nothing but its initial spacer.  So `sdReadDir` is not
called, no button is made and nothing is reported. -/
theorem build_opendir_failure (SD_SCREEN_FILE_LENGTH : Nat)
    (compare_nocase : CString → CString → Bool) (sd : SdCard)
    (hres : sd.f_opendir ≠ FR_OK) :
    build SD_SCREEN_FILE_LENGTH compare_nocase sd =
        [Call.getCurrentPath, Call.newFilePreview, Call.f_opendir,
         Call.setInnerHeight [GridCall.spacer_PAGE_PADDING],
         Call.previewSetHeight [GridCall.spacer_PAGE_PADDING]]
      ∧ readCalls (build SD_SCREEN_FILE_LENGTH compare_nocase sd) = 0
      ∧ buttons (build SD_SCREEN_FILE_LENGTH compare_nocase sd) = [] := by
  have hb : build SD_SCREEN_FILE_LENGTH compare_nocase sd =
      [Call.getCurrentPath, Call.newFilePreview, Call.f_opendir,
       Call.setInnerHeight [GridCall.spacer_PAGE_PADDING],
       Call.previewSetHeight [GridCall.spacer_PAGE_PADDING]] := by
    simp [build, hres]
  refine ⟨hb, ?_, ?_⟩
  · rw [hb]; decide
  · rw [hb]; decide

/-- C3 at a card whose `f_opendir` answers 1 (`FR_DISK_ERR`). -/
theorem build_opendir_failure_witness :
    (1 : Nat) ≠ FR_OK ∧
    (build 8 shorterFirst { sampleCard with f_opendir := 1 } =
        [Call.getCurrentPath, Call.newFilePreview, Call.f_opendir,
         Call.setInnerHeight [GridCall.spacer_PAGE_PADDING],
         Call.previewSetHeight [GridCall.spacer_PAGE_PADDING]]
      ∧ readCalls (build 8 shorterFirst { sampleCard with f_opendir := 1 }) = 0
      ∧ buttons (build 8 shorterFirst { sampleCard with f_opendir := 1 }) = []) :=
  ⟨by decide, build_opendir_failure 8 shorterFirst { sampleCard with f_opendir := 1 } (by decide)⟩

/-! ## C4: where the reading stops -/

theorem takeWhile_append_stop {α : Type} (p : α → Bool) (pre : List α) (stop : α)
    (post : List α) (hpre : ∀ e ∈ pre, p e = true) (hstop : p stop = false) :
    (pre ++ stop :: post).takeWhile p = pre := by
  induction pre with
  | nil => simp [List.takeWhile, hstop]
  | cons a pre ih =>
    have ha : p a = true := hpre a (List.mem_cons_self a pre)
    have ih2 := ih (fun e he => hpre e (List.mem_cons_of_mem a he))
    simp [List.takeWhile, ha, ih2]

/-- C4.  Let the answers of `sdReadDir` be `pre`, then `stop`, then `post`, where
no answer of `pre` breaks the loop and `stop` does (an error or an empty
name).  Then the run is the same as if `post` were not there, `sdReadDir` is
called `pre.length + 1` times in all, and the buttons carry exactly the names
of the entries of `pre` that pass the two skip tests, wherever the skipped
entries stand among them. -/
theorem build_reading_stops (SD_SCREEN_FILE_LENGTH : Nat)
    (compare_nocase : CString → CString → Bool)
    (pre : List (Nat × FILINFO)) (stop : Nat × FILINFO) (post : List (Nat × FILINFO))
    (hpre : ∀ e ∈ pre, breaksLoop e = false) (hstop : breaksLoop stop = true) :
    build SD_SCREEN_FILE_LENGTH compare_nocase
        { f_opendir := FR_OK, sdReadDir := pre ++ stop :: post }
      = build SD_SCREEN_FILE_LENGTH compare_nocase
        { f_opendir := FR_OK, sdReadDir := pre ++ [stop] }
    ∧ readCalls (build SD_SCREEN_FILE_LENGTH compare_nocase
        { f_opendir := FR_OK, sdReadDir := pre ++ stop :: post }) = pre.length + 1
    ∧ ((buttons (build SD_SCREEN_FILE_LENGTH compare_nocase
        { f_opendir := FR_OK, sdReadDir := pre ++ stop :: post })).map Button.name).Perm
        (((pre.map Prod.snd).filter (fun f =>
          decide (f.fname.length ≤ SD_SCREEN_FILE_LENGTH) && !skippedAsHidden f)).map
            FILINFO.fname) := by
  have htw : ∀ post0 : List (Nat × FILINFO),
      (pre ++ stop :: post0).takeWhile (fun e => !breaksLoop e) = pre :=
    fun post0 => takeWhile_append_stop _ pre stop post0
      (fun e he => by simp [hpre e he]) (by simp [hstop])
  have hloop : ∀ st : BuildState,
      readLoop SD_SCREEN_FILE_LENGTH (pre ++ stop :: post) st
        = readLoop SD_SCREEN_FILE_LENGTH (pre ++ [stop]) st := by
    intro st
    rw [readLoop_eq, readLoop_eq]
    simp only [readEntries, htw post, htw []]
  refine ⟨?_, ?_, ?_⟩
  · simp only [build, hloop]
  · rw [readCalls_build, htw post]
  · rw [accepted_eq, buttons_build, List.map_append, map_name_directory, map_name_file]
    refine ((list_sort_perm _ _).append (list_sort_perm _ _)).trans ?_
    rw [← List.map_append]
    have hread : entriesRead { f_opendir := FR_OK, sdReadDir := pre ++ stop :: post }
        = pre.map Prod.snd := by
      simp [entriesRead, readEntries, htw post]
    rw [hread]
    exact (split_by_kind_perm (accepted SD_SCREEN_FILE_LENGTH) (pre.map Prod.snd)).map _

/-- C4 at the sample card: five entries, a hidden one among them, then a read
error, then one more entry that is never read. -/
theorem build_reading_stops_witness :
    ((∀ e ∈ sampleCard.sdReadDir.take 5, breaksLoop e = false)
      ∧ breaksLoop (1, { fname := ['a'], fattrib := 0x20 }) = true)
    ∧ build 8 shorterFirst
        { f_opendir := FR_OK,
          sdReadDir := sampleCard.sdReadDir.take 5 ++
            (1, { fname := ['a'], fattrib := 0x20 }) :: sampleCard.sdReadDir.drop 6 }
      = build 8 shorterFirst
        { f_opendir := FR_OK,
          sdReadDir := sampleCard.sdReadDir.take 5 ++ [(1, { fname := ['a'], fattrib := 0x20 })] }
    ∧ readCalls (build 8 shorterFirst
        { f_opendir := FR_OK,
          sdReadDir := sampleCard.sdReadDir.take 5 ++
            (1, { fname := ['a'], fattrib := 0x20 }) :: sampleCard.sdReadDir.drop 6 })
        = (sampleCard.sdReadDir.take 5).length + 1
    ∧ ((buttons (build 8 shorterFirst
        { f_opendir := FR_OK,
          sdReadDir := sampleCard.sdReadDir.take 5 ++
            (1, { fname := ['a'], fattrib := 0x20 }) :: sampleCard.sdReadDir.drop 6 })).map
          Button.name).Perm
        ((((sampleCard.sdReadDir.take 5).map Prod.snd).filter (fun f =>
          decide (f.fname.length ≤ 8) && !skippedAsHidden f)).map FILINFO.fname) :=
  ⟨⟨by decide, by decide⟩,
   build_reading_stops 8 shorterFirst (sampleCard.sdReadDir.take 5)
    (1, { fname := ['a'], fattrib := 0x20 }) (sampleCard.sdReadDir.drop 6)
    (by decide) (by decide)⟩

/-! ## C5: hidden entries -/

/-- C5, the run on a directory holding the one file `..foo`.  The name starts
with a dot and is not the parent entry, yet the file gets a button: the skip
test looks at the second character only. -/
theorem build_lists_double_dot_file (SD_SCREEN_FILE_LENGTH : Nat)
    (compare_nocase : CString → CString → Bool) (hlen : 5 ≤ SD_SCREEN_FILE_LENGTH) :
    buttons (build SD_SCREEN_FILE_LENGTH compare_nocase
        { f_opendir := FR_OK,
          sdReadDir := [(FR_OK, { fname := ['.', '.', 'f', 'o', 'o'], fattrib := 0x20 })] })
      = [Button.file ['.', '.', 'f', 'o', 'o']] := by
  rw [buttons_build]
  have hacc : accepted SD_SCREEN_FILE_LENGTH
      { fname := ['.', '.', 'f', 'o', 'o'], fattrib := 0x20 } = true := by
    have : ¬ (5 > SD_SCREEN_FILE_LENGTH) := by omega
    simp [accepted, tooLong, this]
    decide
  have hdir : isDirectory { fname := ['.', '.', 'f', 'o', 'o'], fattrib := 0x20 } = false := by
    decide
  have hbr : breaksLoop (FR_OK, { fname := ['.', '.', 'f', 'o', 'o'], fattrib := 0x20 })
      = false := by decide
  simp [entriesRead, readEntries, List.takeWhile, hbr, List.filter, hacc, hdir, list_sort]

/-- C5 at `SD_SCREEN_FILE_LENGTH = 8`. -/
theorem build_lists_double_dot_file_witness :
    5 ≤ 8 ∧
    buttons (build 8 shorterFirst
        { f_opendir := FR_OK,
          sdReadDir := [(FR_OK, { fname := ['.', '.', 'f', 'o', 'o'], fattrib := 0x20 })] })
      = [Button.file ['.', '.', 'f', 'o', 'o']] :=
  ⟨by decide, build_lists_double_dot_file 8 shorterFirst (by decide)⟩

/-! ## C6: the tabs of the model menu -/

/-- C6.  For every choice of `HELI`, `FLIGHT_MODES`, `GVARS` and
`LUA_MODEL_SCRIPTS` the constructor registers Setup, [Heli], [FlightModes],
Inputs, Mixes, Outputs, Curves, [GVars], LogicalSwitches, SpecialFunctions,
[MixerScripts], Telemetry in this order, a bracketed tab being there exactly
when its symbol is defined.  The eight others are always there, Setup first and
Telemetry last, and there are 8 tabs plus one per defined symbol. -/
theorem ModelMenu_tabs (f : ModelMenuFlags) :
    ModelMenu f =
        [Tab.ModelSetupPage]
        ++ (if f.HELI then [Tab.ModelHeliPage] else [])
        ++ (if f.FLIGHT_MODES then [Tab.ModelFlightModesPage] else [])
        ++ [Tab.ModelInputsPage, Tab.ModelMixesPage, Tab.ModelOutputsPage, Tab.ModelCurvesPage]
        ++ (if f.GVARS then [Tab.ModelGVarsPage] else [])
        ++ [Tab.ModelLogicalSwitchesPage, Tab.SpecialFunctionsPage]
        ++ (if f.LUA_MODEL_SCRIPTS then [Tab.ModelMixerScriptsPage] else [])
        ++ [Tab.ModelTelemetryPage]
      ∧ (ModelMenu f).head? = some Tab.ModelSetupPage
      ∧ (ModelMenu f).getLast? = some Tab.ModelTelemetryPage
      ∧ (ModelMenu f).length = 8 + f.defined
      ∧ (ModelMenu f).Nodup
      ∧ List.Sublist [Tab.ModelSetupPage, Tab.ModelInputsPage, Tab.ModelMixesPage,
          Tab.ModelOutputsPage, Tab.ModelCurvesPage, Tab.ModelLogicalSwitchesPage,
          Tab.SpecialFunctionsPage, Tab.ModelTelemetryPage] (ModelMenu f)
      ∧ (Tab.ModelHeliPage ∈ ModelMenu f ↔ f.HELI = true)
      ∧ (Tab.ModelFlightModesPage ∈ ModelMenu f ↔ f.FLIGHT_MODES = true)
      ∧ (Tab.ModelGVarsPage ∈ ModelMenu f ↔ f.GVARS = true)
      ∧ (Tab.ModelMixerScriptsPage ∈ ModelMenu f ↔ f.LUA_MODEL_SCRIPTS = true) := by
  rcases f with ⟨a, b, c, d⟩
  cases a <;> cases b <;> cases c <;> cases d <;> decide

/-! ## C7: the destination name of Paste -/

theorem strAppendTake_bounded : BoundedAppend strAppendTake := by
  intro dest source len hlen
  simp [strAppendTake, List.take_of_length_le (Nat.le_of_lt hlen)]

/-- C7, what the Paste handler does.  Let `strAppend` be a bounded append, and
let `FILE_COPY_PREFIX` and the clipboard file name be shorter than
`CLIPBOARD_PATH_LEN`.  The source of the copy is the clipboard file in the
clipboard directory and the destination directory is the current one.  In
another directory `destNamePtr` is the clipboard file name and `sdCopyFile`
reads that name.  In the clipboard directory the handler writes
`FILE_COPY_PREFIX` followed by the clipboard file name into `destFileName` and
points `destNamePtr` there, but the array is local to the block of the `if` and
`sdCopyFile` is called after that block: the name it reads is not defined. -/
theorem paste_destination_pointer (strAppend : CString → CString → Nat → CString)
    (happ : BoundedAppend strAppend) (copyPrefix : CString) (CLIPBOARD_PATH_LEN : Nat)
    (clipboard : SdClipboard) (lfn : CString)
    (hpfx : copyPrefix.length < CLIPBOARD_PATH_LEN)
    (hname : clipboard.filename.length < CLIPBOARD_PATH_LEN) :
    (pasteHandler strAppend copyPrefix CLIPBOARD_PATH_LEN clipboard lfn).srcFilename
        = clipboard.filename
      ∧ (pasteHandler strAppend copyPrefix CLIPBOARD_PATH_LEN clipboard lfn).srcDir
        = clipboard.directory
      ∧ (pasteHandler strAppend copyPrefix CLIPBOARD_PATH_LEN clipboard lfn).destDir = lfn
      ∧ (lfn ≠ clipboard.directory →
          (pasteHandler strAppend copyPrefix CLIPBOARD_PATH_LEN clipboard lfn).destNamePtr
            = { object := NameObject.clipboardFilename, text := clipboard.filename }
          ∧ (pasteHandler strAppend copyPrefix CLIPBOARD_PATH_LEN clipboard lfn).destFilename
            = some clipboard.filename)
      ∧ (lfn = clipboard.directory →
          (pasteHandler strAppend copyPrefix CLIPBOARD_PATH_LEN clipboard lfn).destNamePtr
            = { object := NameObject.destFileName, text := copyPrefix ++ clipboard.filename }
          ∧ (pasteHandler strAppend copyPrefix CLIPBOARD_PATH_LEN clipboard lfn).destFilename
            = none) := by
  refine ⟨rfl, rfl, rfl, ?_, ?_⟩
  · intro hd
    have hd2 : ¬ clipboard.directory = lfn := fun h => hd h.symm
    simp only [pasteHandler, hd2, if_false, NamePtr.readAfterBlock, and_self]
  · intro hd
    have hd2 : clipboard.directory = lfn := hd.symm
    have hbuf : strAppend (strAppend [] copyPrefix CLIPBOARD_PATH_LEN) clipboard.filename
        CLIPBOARD_PATH_LEN = copyPrefix ++ clipboard.filename := by
      rw [happ [] copyPrefix CLIPBOARD_PATH_LEN hpfx,
        happ _ clipboard.filename CLIPBOARD_PATH_LEN hname, List.nil_append]
    simp only [pasteHandler, hd2, if_true, hbuf, NamePtr.readAfterBlock, and_self]

/-- C7 at the clipboard (`/S`, `a.w`) pasted into `/S`, with the prefix `cp_` and
`CLIPBOARD_PATH_LEN = 32`: `cp_a.w` is written to the local array, and the name
read by `sdCopyFile` is not defined. -/
theorem paste_destination_pointer_witness :
    (BoundedAppend strAppendTake
      ∧ (['c', 'p', '_'] : CString).length < 32 ∧ (['a', '.', 'w'] : CString).length < 32
      ∧ (['/', 'S'] : CString) = ['/', 'S'])
    ∧ (pasteHandler strAppendTake ['c', 'p', '_'] 32
        { directory := ['/', 'S'], filename := ['a', '.', 'w'] } ['/', 'S']).destNamePtr
        = { object := NameObject.destFileName, text := ['c', 'p', '_'] ++ ['a', '.', 'w'] }
    ∧ (pasteHandler strAppendTake ['c', 'p', '_'] 32
        { directory := ['/', 'S'], filename := ['a', '.', 'w'] } ['/', 'S']).destFilename
        = none :=
  ⟨⟨strAppendTake_bounded, by decide, by decide, rfl⟩,
   (paste_destination_pointer strAppendTake strAppendTake_bounded ['c', 'p', '_'] 32
      { directory := ['/', 'S'], filename := ['a', '.', 'w'] } ['/', 'S']
      (by decide) (by decide)).2.2.2.2 rfl⟩

/-! ## C8: renaming keeps the extension -/

theorem uint8_sub (a b : Nat) (hb : b ≤ a) (ha : a ≤ 255) :
    (((a : Int) - (b : Int)) % 256).toNat = a - b := by
  have h1 : ((a : Int) - (b : Int)) = ((a - b : Nat) : Int) := by omega
  rw [h1]
  have h2 : (((a - b : Nat) : Int) % 256) = ((a - b : Nat) : Int) := by omega
  rw [h2]
  exact Int.toNat_natCast _

theorem buildBody_eq (SD LEN : Nat) (name : CString) (r : FileExtension)
    (hSD : SD ≤ 255) (hname : name.length ≤ SD) (hrep : ReportsExtension name r)
    (hext : r.extLength ≤ LEN) :
    buildBody SD LEN name r =
      { originalName := name.take (name.length - r.extLength),
        extension := name.drop (name.length - r.extLength),
        extLength := r.extLength,
        editLength := (SD : Int) - r.extLength } := by
  obtain ⟨hn, hle, hptr⟩ := hrep
  have he256 : r.extLength % 256 = r.extLength := Nat.mod_eq_of_lt (by omega)
  have hn256 : r.nameLength % 256 = name.length := by rw [hn]; exact Nat.mod_eq_of_lt (by omega)
  have hclamp : ¬ (r.extLength > LEN) := by omega
  have hmax : (((SD : Int) - (r.extLength : Int)) % 256).toNat = SD - r.extLength :=
    uint8_sub SD r.extLength (by omega) hSD
  have hnl : (((name.length : Int) - (r.extLength : Int)) % 256).toNat
      = name.length - r.extLength := uint8_sub name.length r.extLength hle (by omega)
  have hcl : ¬ (name.length - r.extLength > SD - r.extLength) := by omega
  have hextn : (match r.ext with
      | some i => strncpy (name.drop i) r.extLength
      | none => []) = name.drop (name.length - r.extLength) := by
    by_cases h0 : r.extLength = 0
    · have hd : name.drop (name.length - r.extLength) = [] := by
        rw [h0]; simp
      rw [hd]
      cases r.ext with
      | none => rfl
      | some i => simp [strncpy, h0]
    · rw [hptr h0]
      simp only [strncpy]
      apply List.take_of_length_le
      rw [List.length_drop]
      omega
  simp only [strncpy] at hextn
  simp only [buildBody, he256, hn256, hclamp, if_false, hmax, hnl, hcl, hextn, strncpy,
    List.take_take, Nat.min_self]

/-- C8.  Let `SD_SCREEN_FILE_LENGTH` fit a `uint8_t`, let the name be at most that
long, and let `getFileExtension` report the length of the name and an
extension, the last `extLength` characters of the name, of at most
`LEN_FILE_EXTENSION_MAX` characters.  Then for every edited base text of at
most `SD_SCREEN_FILE_LENGTH - extLength` characters `f_rename` gets the
original name and, as new name, the edited text followed by the extension,
which is at most `SD_SCREEN_FILE_LENGTH` long.  The text field opens on the
name without its extension, and leaving it as it is renames the file to its
own name. -/
theorem rename_keeps_extension (SD_SCREEN_FILE_LENGTH LEN_FILE_EXTENSION_MAX : Nat)
    (name : CString) (r : FileExtension) (edited : CString)
    (hSD : SD_SCREEN_FILE_LENGTH ≤ 255)
    (hname : name.length ≤ SD_SCREEN_FILE_LENGTH)
    (hrep : ReportsExtension name r)
    (hext : r.extLength ≤ LEN_FILE_EXTENSION_MAX)
    (hedit : edited.length ≤ SD_SCREEN_FILE_LENGTH - r.extLength) :
    changeHandler name (buildBody SD_SCREEN_FILE_LENGTH LEN_FILE_EXTENSION_MAX name r) edited
        = (name, edited ++ name.drop (name.length - r.extLength))
      ∧ (edited ++ name.drop (name.length - r.extLength)).length ≤ SD_SCREEN_FILE_LENGTH
      ∧ (buildBody SD_SCREEN_FILE_LENGTH LEN_FILE_EXTENSION_MAX name r).originalName
        = name.take (name.length - r.extLength)
      ∧ changeHandler name (buildBody SD_SCREEN_FILE_LENGTH LEN_FILE_EXTENSION_MAX name r)
          (buildBody SD_SCREEN_FILE_LENGTH LEN_FILE_EXTENSION_MAX name r).originalName
        = (name, name) := by
  have hb := buildBody_eq SD_SCREEN_FILE_LENGTH LEN_FILE_EXTENSION_MAX name r hSD hname hrep hext
  have hle : r.extLength ≤ name.length := hrep.2.1
  have hdl : (name.drop (name.length - r.extLength)).length = r.extLength := by
    rw [List.length_drop]; omega
  have hch : ∀ t : CString,
      changeHandler name (buildBody SD_SCREEN_FILE_LENGTH LEN_FILE_EXTENSION_MAX name r) t
        = (name, t ++ name.drop (name.length - r.extLength)) := by
    intro t
    rw [hb]
    simp only [changeHandler, strncpy, List.take_length]
    by_cases h0 : r.extLength = 0
    · have hd : name.drop (name.length - r.extLength) = [] := by rw [h0]; simp
      simp [h0, hd]
    · have ht : (name.drop (name.length - r.extLength)).take r.extLength
          = name.drop (name.length - r.extLength) :=
        List.take_of_length_le (by omega)
      simp only [ne_eq, h0, not_false_eq_true, if_true, ht]
      rw [List.take_of_length_le]
      rw [List.length_append, hdl]
  refine ⟨hch edited, ?_, ?_, ?_⟩
  · rw [List.length_append, hdl]; omega
  · rw [hb]
  · rw [hch, hb]
    exact congrArg (Prod.mk name) (List.take_append_drop _ name)

/-- C8 at `model.yml` with `SD_SCREEN_FILE_LENGTH = 64` and
`LEN_FILE_EXTENSION_MAX = 5`, the base text edited to `m2`. -/
theorem rename_keeps_extension_witness :
    (64 ≤ 255 ∧ (['m', 'o', 'd', 'e', 'l', '.', 'y', 'm', 'l'] : CString).length ≤ 64
      ∧ ReportsExtension ['m', 'o', 'd', 'e', 'l', '.', 'y', 'm', 'l']
          { ext := some 5, nameLength := 9, extLength := 4 }
      ∧ 4 ≤ 5 ∧ (['m', '2'] : CString).length ≤ 64 - 4)
    ∧ changeHandler ['m', 'o', 'd', 'e', 'l', '.', 'y', 'm', 'l']
        (buildBody 64 5 ['m', 'o', 'd', 'e', 'l', '.', 'y', 'm', 'l']
          { ext := some 5, nameLength := 9, extLength := 4 }) ['m', '2']
      = (['m', 'o', 'd', 'e', 'l', '.', 'y', 'm', 'l'], ['m', '2', '.', 'y', 'm', 'l']) :=
  ⟨by decide,
   (rename_keeps_extension 64 5 ['m', 'o', 'd', 'e', 'l', '.', 'y', 'm', 'l']
      { ext := some 5, nameLength := 9, extLength := 4 } ['m', '2']
      (by decide) (by decide) (by decide) (by decide) (by decide)).1⟩

/-! ## C9: ENTER and EXIT in the popup menu -/

/-- C10.  With `warningType == WARNING_TYPE_ASTERISK`, `runPopupWarning` on
`EVT_KEY_BREAK(KEY_ENTER)` leaves `warningText` and `warningType` as they were
and does not call `popupMenuHandler`; on `EVT_KEY_BREAK(KEY_EXIT)` it sets
`warningText` to null, keeps the type and does not call the handler either. -/
theorem runPopupWarning_asterisk (cfg : PopupConfig)
    (popupMenuHandler : Option (String → PopupWarning → PopupWarning)) (w : PopupWarning)
    (htype : w.warningType = WarningType.WARNING_TYPE_ASTERISK) :
    (runPopupWarning cfg popupMenuHandler Event.EVT_KEY_BREAK_KEY_ENTER w).warning.warningText
        = w.warningText
      ∧ (runPopupWarning cfg popupMenuHandler Event.EVT_KEY_BREAK_KEY_ENTER w).warning.warningType
        = w.warningType
      ∧ (runPopupWarning cfg popupMenuHandler Event.EVT_KEY_BREAK_KEY_ENTER w).handlerCalls = []
      ∧ (runPopupWarning cfg popupMenuHandler Event.EVT_KEY_BREAK_KEY_EXIT w).warning.warningText
        = none
      ∧ (runPopupWarning cfg popupMenuHandler Event.EVT_KEY_BREAK_KEY_EXIT w).warning.warningType
        = WarningType.WARNING_TYPE_ASTERISK
      ∧ (runPopupWarning cfg popupMenuHandler Event.EVT_KEY_BREAK_KEY_EXIT w).handlerCalls = [] := by
  simp [runPopupWarning, warningExit, htype]

/-- C10 at a popup of type ASTERISK, with a handler that would open a new popup
if it were called. -/
theorem runPopupWarning_asterisk_witness :
    (({ warningText := some "!", warningType := WarningType.WARNING_TYPE_ASTERISK,
        warningResult := true } : PopupWarning).warningType = WarningType.WARNING_TYPE_ASTERISK)
    ∧ (runPopupWarning sampleConfig (some (fun _ v => { v with warningText := some "again" }))
        Event.EVT_KEY_BREAK_KEY_ENTER
        { warningText := some "!", warningType := WarningType.WARNING_TYPE_ASTERISK,
          warningResult := true }).warning.warningText = some "!"
    ∧ (runPopupWarning sampleConfig (some (fun _ v => { v with warningText := some "again" }))
        Event.EVT_KEY_BREAK_KEY_EXIT
        { warningText := some "!", warningType := WarningType.WARNING_TYPE_ASTERISK,
          warningResult := true }).warning.warningText = none :=
  ⟨rfl,
   (runPopupWarning_asterisk sampleConfig
      (some (fun _ v => { v with warningText := some "again" }))
      { warningText := some "!", warningType := WarningType.WARNING_TYPE_ASTERISK,
        warningResult := true } rfl).1,
   (runPopupWarning_asterisk sampleConfig
      (some (fun _ v => { v with warningText := some "again" }))
      { warningText := some "!", warningType := WarningType.WARNING_TYPE_ASTERISK,
        warningResult := true } rfl).2.2.2.1⟩

/-! ## C11: ENTER on a popup that is neither ASTERISK nor CONFIRM -/

/-- C11.  When `warningType` is neither `WARNING_TYPE_ASTERISK` nor
`WARNING_TYPE_CONFIRM`, `runPopupWarning` does on `EVT_KEY_BREAK(KEY_ENTER)`
exactly what it does on `EVT_KEY_BREAK(KEY_EXIT)`: `warningText` becomes null,
`warningType` becomes `WARNING_TYPE_ASTERISK`, `warningResult` is false and
`popupMenuHandler` is not called. -/
theorem runPopupWarning_enter_as_exit (cfg : PopupConfig)
    (popupMenuHandler : Option (String → PopupWarning → PopupWarning)) (w : PopupWarning)
    (hast : w.warningType ≠ WarningType.WARNING_TYPE_ASTERISK)
    (hconf : w.warningType ≠ WarningType.WARNING_TYPE_CONFIRM) :
    runPopupWarning cfg popupMenuHandler Event.EVT_KEY_BREAK_KEY_ENTER w
        = runPopupWarning cfg popupMenuHandler Event.EVT_KEY_BREAK_KEY_EXIT w
      ∧ (runPopupWarning cfg popupMenuHandler Event.EVT_KEY_BREAK_KEY_ENTER w).warning
        = { warningText := none, warningType := WarningType.WARNING_TYPE_ASTERISK,
            warningResult := false }
      ∧ (runPopupWarning cfg popupMenuHandler Event.EVT_KEY_BREAK_KEY_ENTER w).handlerCalls
        = [] := by
  have henter : runPopupWarning cfg popupMenuHandler Event.EVT_KEY_BREAK_KEY_ENTER w
      = warningExit cfg popupMenuHandler
          { warning := { w with warningResult := false }, handlerCalls := [] } := by
    simp only [runPopupWarning, hast, hconf, if_false]
  have hexit : runPopupWarning cfg popupMenuHandler Event.EVT_KEY_BREAK_KEY_EXIT w
      = warningExit cfg popupMenuHandler
          { warning := { w with warningResult := false }, handlerCalls := [] } := rfl
  refine ⟨henter.trans hexit.symm, ?_, ?_⟩
  · rw [henter]
    simp only [warningExit, hconf, if_false]
  · rw [henter]
    simp only [warningExit, hconf, if_false]

/-- C11 at a popup of type INFO with the sample handler. -/
theorem runPopupWarning_enter_as_exit_witness :
    (WarningType.WARNING_TYPE_INFO ≠ WarningType.WARNING_TYPE_ASTERISK
      ∧ WarningType.WARNING_TYPE_INFO ≠ WarningType.WARNING_TYPE_CONFIRM)
    ∧ (runPopupWarning sampleConfig (some sampleHandler) Event.EVT_KEY_BREAK_KEY_ENTER
        { warningText := some "i", warningType := WarningType.WARNING_TYPE_INFO,
          warningResult := true }
        = runPopupWarning sampleConfig (some sampleHandler) Event.EVT_KEY_BREAK_KEY_EXIT
        { warningText := some "i", warningType := WarningType.WARNING_TYPE_INFO,
          warningResult := true }
      ∧ (runPopupWarning sampleConfig (some sampleHandler) Event.EVT_KEY_BREAK_KEY_ENTER
        { warningText := some "i", warningType := WarningType.WARNING_TYPE_INFO,
          warningResult := true }).warning
        = { warningText := none, warningType := WarningType.WARNING_TYPE_ASTERISK,
            warningResult := false }
      ∧ (runPopupWarning sampleConfig (some sampleHandler) Event.EVT_KEY_BREAK_KEY_ENTER
        { warningText := some "i", warningType := WarningType.WARNING_TYPE_INFO,
          warningResult := true }).handlerCalls = []) :=
  ⟨⟨by decide, by decide⟩,
   runPopupWarning_enter_as_exit sampleConfig (some sampleHandler)
    { warningText := some "i", warningType := WarningType.WARNING_TYPE_INFO,
      warningResult := true } (by decide) (by decide)⟩

/-! ## C12: the outcome of a confirmation popup -/

/-- C12 as stated fails when the handler writes `warningResult`: on a popup of
type `WARNING_TYPE_CONFIRM`, with a handler that sets `warningResult` to true,
`EVT_KEY_BREAK(KEY_EXIT)` leaves `warningResult` true although the event is not
`EVT_KEY_BREAK(KEY_ENTER)`; the handler is called after `runPopupWarning` has
set the variable. -/
theorem runPopupWarning_confirm_outcome_counterexample :
    ({ warningText := some "?", warningType := WarningType.WARNING_TYPE_CONFIRM,
        warningResult := false } : PopupWarning).warningType
        = WarningType.WARNING_TYPE_CONFIRM
    ∧ ¬ (Event.EVT_KEY_BREAK_KEY_EXIT = Event.EVT_KEY_BREAK_KEY_ENTER
          ∧ WarningType.WARNING_TYPE_CONFIRM = WarningType.WARNING_TYPE_CONFIRM)
    ∧ (runPopupWarning sampleConfig (some overridingHandler) Event.EVT_KEY_BREAK_KEY_EXIT
        { warningText := some "?", warningType := WarningType.WARNING_TYPE_CONFIRM,
          warningResult := false }).warning.warningResult = true
    ∧ ¬ ((runPopupWarning sampleConfig (some overridingHandler) Event.EVT_KEY_BREAK_KEY_EXIT
        { warningText := some "?", warningType := WarningType.WARNING_TYPE_CONFIRM,
          warningResult := false }).warning.warningResult = true
        ↔ Event.EVT_KEY_BREAK_KEY_EXIT = Event.EVT_KEY_BREAK_KEY_ENTER) := by
  have hrun : (runPopupWarning sampleConfig (some overridingHandler)
      Event.EVT_KEY_BREAK_KEY_EXIT
      { warningText := some "?", warningType := WarningType.WARNING_TYPE_CONFIRM,
        warningResult := false }).warning.warningResult = true := rfl
  refine ⟨rfl, by decide, hrun, ?_⟩
  intro hiff
  exact absurd (hiff.mp hrun) (by decide)

/-- C12, amended.  For a popup of type `WARNING_TYPE_CONFIRM` and every handler,
a non-null `popupMenuHandler` is called once with `STR_OK` on
`EVT_KEY_BREAK(KEY_ENTER)`, once with `STR_EXIT` on `EVT_KEY_BREAK(KEY_EXIT)`,
and not at all on any other event.  For every handler `warningResult` is false
after the call when the type is not CONFIRM or the event is neither ENTER nor
EXIT.  When the handler is null or leaves `warningResult` as it finds it, then
on a CONFIRM popup `warningResult` is true after the call exactly when the
event is ENTER, and for every type and event other than ENTER on a CONFIRM
popup it is false. -/
theorem runPopupWarning_confirm_outcome (cfg : PopupConfig)
    (popupMenuHandler : Option (String → PopupWarning → PopupWarning))
    (event : Event) (w : PopupWarning) :
    (w.warningType = WarningType.WARNING_TYPE_CONFIRM →
      (runPopupWarning cfg popupMenuHandler event w).handlerCalls
          = (if popupMenuHandler.isSome = true then
              (if event = Event.EVT_KEY_BREAK_KEY_ENTER then [cfg.STR_OK]
               else if event = Event.EVT_KEY_BREAK_KEY_EXIT then [cfg.STR_EXIT]
               else [])
             else []))
    ∧ ((w.warningType ≠ WarningType.WARNING_TYPE_CONFIRM
          ∨ (event ≠ Event.EVT_KEY_BREAK_KEY_ENTER ∧ event ≠ Event.EVT_KEY_BREAK_KEY_EXIT)) →
        (runPopupWarning cfg popupMenuHandler event w).warning.warningResult = false)
    ∧ ((∀ h, popupMenuHandler = some h →
          ∀ arg v, (h arg v).warningResult = v.warningResult) →
        (w.warningType = WarningType.WARNING_TYPE_CONFIRM →
          ((runPopupWarning cfg popupMenuHandler event w).warning.warningResult = true
            ↔ event = Event.EVT_KEY_BREAK_KEY_ENTER))
        ∧ (¬ (event = Event.EVT_KEY_BREAK_KEY_ENTER
              ∧ w.warningType = WarningType.WARNING_TYPE_CONFIRM) →
            (runPopupWarning cfg popupMenuHandler event w).warning.warningResult = false)) := by
  obtain ⟨text, type, res⟩ := w
  refine ⟨?_, ?_, ?_⟩
  · intro htype
    simp only at htype
    subst htype
    cases popupMenuHandler <;> cases event <;>
      simp [runPopupWarning, warningExit, callHandler]
  · intro hne
    cases popupMenuHandler <;> cases event <;> cases type <;>
      simp_all [runPopupWarning, warningExit, callHandler]
  · intro hframe
    cases popupMenuHandler with
    | none =>
      constructor
      · intro htype
        simp only at htype
        subst htype
        cases event <;> simp [runPopupWarning, warningExit, callHandler]
      · intro hne
        cases event <;> cases type <;>
          simp_all [runPopupWarning, warningExit, callHandler]
    | some h =>
      have hf := hframe h rfl
      constructor
      · intro htype
        simp only at htype
        subst htype
        cases event <;> simp [runPopupWarning, warningExit, callHandler, hf]
      · intro hne
        cases event <;> cases type <;>
          simp_all [runPopupWarning, warningExit, callHandler]

/-- C12, amended, at a confirmation popup with the sample handler, which leaves
`warningResult` alone: ENTER gives true and one call with `STR_OK`. -/
theorem runPopupWarning_confirm_outcome_witness :
    (∀ h, some sampleHandler = some h →
      ∀ arg v, (h arg v).warningResult = v.warningResult)
    ∧ ((runPopupWarning sampleConfig (some sampleHandler) Event.EVT_KEY_BREAK_KEY_ENTER
        { warningText := some "?", warningType := WarningType.WARNING_TYPE_CONFIRM,
          warningResult := false }).warning.warningResult = true
        ↔ Event.EVT_KEY_BREAK_KEY_ENTER = Event.EVT_KEY_BREAK_KEY_ENTER)
    ∧ (runPopupWarning sampleConfig (some sampleHandler) Event.EVT_KEY_BREAK_KEY_ENTER
        { warningText := some "?", warningType := WarningType.WARNING_TYPE_CONFIRM,
          warningResult := false }).handlerCalls
        = (if (some sampleHandler).isSome = true then
            (if Event.EVT_KEY_BREAK_KEY_ENTER = Event.EVT_KEY_BREAK_KEY_ENTER
              then [sampleConfig.STR_OK]
             else if Event.EVT_KEY_BREAK_KEY_ENTER = Event.EVT_KEY_BREAK_KEY_EXIT
              then [sampleConfig.STR_EXIT]
             else [])
           else []) :=
  ⟨fun h hh arg v => by cases hh; rfl,
   ((runPopupWarning_confirm_outcome sampleConfig (some sampleHandler)
      Event.EVT_KEY_BREAK_KEY_ENTER
      { warningText := some "?", warningType := WarningType.WARNING_TYPE_CONFIRM,
        warningResult := false }).2.2
      (fun h hh arg v => by cases hh; rfl)).1 rfl,
   (runPopupWarning_confirm_outcome sampleConfig (some sampleHandler)
      Event.EVT_KEY_BREAK_KEY_ENTER
      { warningText := some "?", warningType := WarningType.WARNING_TYPE_CONFIRM,
        warningResult := false }).1 rfl⟩

/-! ## Helper lemmas: navigation in the popup menu -/

theorem uint16_sub (a b : Nat) (hb : b ≤ a) (ha : a ≤ 65535) :
    (((a : Int) - (b : Int)) % 65536).toNat = a - b := by
  have h1 : ((a : Int) - (b : Int)) = ((a - b : Nat) : Int) := by omega
  rw [h1]
  have h2 : (((a - b : Nat) : Int) % 65536) = ((a - b : Nat) : Int) := by omega
  rw [h2]
  exact Int.toNat_natCast _

theorem displayCount_eq (cfg : PopupConfig) (m : PopupMenu)
    (hM : cfg.MENU_MAX_DISPLAY_LINES ≤ 255) (hn : m.popupMenuItemsCount ≤ 255) :
    displayCount cfg m = min m.popupMenuItemsCount cfg.MENU_MAX_DISPLAY_LINES := by
  unfold displayCount
  rw [Nat.mod_eq_of_lt (by omega), Nat.mod_eq_of_lt (by omega)]

theorem min_facts (n M : Nat) :
    min n M ≤ n ∧ min n M ≤ M ∧ (min n M = n ∨ min n M = M) := by
  refine ⟨Nat.min_le_left _ _, Nat.min_le_right _ _, ?_⟩
  rcases Nat.le_total n M with h | h
  · exact Or.inl (Nat.min_eq_left h)
  · exact Or.inr (Nat.min_eq_right h)

theorem menuInRange_step (cfg : PopupConfig) (e : Event) (m : PopupMenu)
    (hM : cfg.MENU_MAX_DISPLAY_LINES ≤ 255) (hn : m.popupMenuItemsCount ≤ 255)
    (he : menuCase cfg e = MenuCase.up ∨ menuCase cfg e = MenuCase.down
      ∨ menuCase cfg e = MenuCase.unhandled)
    (hinv : MenuInRange cfg m) :
    (runPopupMenu cfg e m).menu.popupMenuItemsCount = m.popupMenuItemsCount
    ∧ MenuInRange cfg (runPopupMenu cfg e m).menu := by
  have hdc := displayCount_eq cfg m hM hn
  have hM256 : cfg.MENU_MAX_DISPLAY_LINES % 256 = cfg.MENU_MAX_DISPLAY_LINES :=
    Nat.mod_eq_of_lt (by omega)
  unfold MenuInRange at hinv ⊢
  obtain ⟨hs, ho⟩ := hinv
  obtain ⟨hd1, hd2, hd3⟩ := min_facts m.popupMenuItemsCount cfg.MENU_MAX_DISPLAY_LINES
  have hmm : min (min m.popupMenuItemsCount cfg.MENU_MAX_DISPLAY_LINES)
      cfg.MENU_MAX_DISPLAY_LINES = min m.popupMenuItemsCount cfg.MENU_MAX_DISPLAY_LINES :=
    Nat.min_eq_left hd2
  have hitem : ((((min m.popupMenuItemsCount cfg.MENU_MAX_DISPLAY_LINES : Nat) : Int) - 1)
      % 256).toNat = min m.popupMenuItemsCount cfg.MENU_MAX_DISPLAY_LINES - 1 := by
    have := uint8_sub (min m.popupMenuItemsCount cfg.MENU_MAX_DISPLAY_LINES) 1
      (by omega) (by omega)
    rw [Nat.cast_one] at this
    exact this
  have hoff : ((((m.popupMenuItemsCount : Int)
      - ((min m.popupMenuItemsCount cfg.MENU_MAX_DISPLAY_LINES : Nat) : Int)) % 65536)).toNat
      = m.popupMenuItemsCount - min m.popupMenuItemsCount cfg.MENU_MAX_DISPLAY_LINES :=
    uint16_sub _ _ hd1 (by omega)
  rcases he with he | he | he
  · unfold runPopupMenu
    simp only [he, hdc, hM256, hmm, hitem, hoff]
    split_ifs with h1 h2 h3
    · dsimp only; omega
    · simp only [Bool.and_eq_true, decide_eq_true_eq] at h2
      dsimp only; omega
    · simp only [Bool.and_eq_true, decide_eq_true_eq] at h3
      dsimp only; omega
    · dsimp only; omega
  · unfold runPopupMenu
    simp only [he, hdc]
    split_ifs with h1 h2 h3
    · dsimp only; omega
    · simp only [Bool.and_eq_true, decide_eq_true_eq] at h2
      dsimp only; omega
    · dsimp only; omega
    · dsimp only; omega
  · unfold runPopupMenu
    simp only [he]
    exact ⟨trivial, hs, ho⟩

theorem succ_mod_eq (a n : Nat) (h : a < n) :
    (a + 1) % n = if a + 1 < n then a + 1 else 0 := by
  split_ifs with h1
  · exact Nat.mod_eq_of_lt h1
  · have : a + 1 = n := by omega
    rw [this, Nat.mod_self]

theorem pred_mod_eq (a n : Nat) (h : a < n) :
    (a + n - 1) % n = if 0 < a then a - 1 else n - 1 := by
  split_ifs with h1
  · have : a + n - 1 = (a - 1) + n := by omega
    rw [this, Nat.add_mod_right]
    exact Nat.mod_eq_of_lt (by omega)
  · have : a + n - 1 = n - 1 := by omega
    rw [this]
    exact Nat.mod_eq_of_lt (by omega)

theorem runPopupMenu_down_step (cfg : PopupConfig) (e : Event) (m : PopupMenu)
    (hSD : cfg.SDCARD = true)
    (hM : cfg.MENU_MAX_DISPLAY_LINES ≤ 255) (hn : m.popupMenuItemsCount ≤ 255)
    (he : menuCase cfg e = MenuCase.down) (hinv : MenuInRange cfg m) :
    selectedIndex (runPopupMenu cfg e m).menu
        = (selectedIndex m + 1) % m.popupMenuItemsCount
      ∧ ((runPopupMenu cfg e m).result = some cfg.STR_UPDATE_LIST
          ↔ (runPopupMenu cfg e m).menu.popupMenuOffset ≠ m.popupMenuOffset) := by
  have hdc := displayCount_eq cfg m hM hn
  unfold MenuInRange at hinv
  obtain ⟨hs, ho⟩ := hinv
  obtain ⟨hd1, hd2, hd3⟩ := min_facts m.popupMenuItemsCount cfg.MENU_MAX_DISPLAY_LINES
  rw [succ_mod_eq _ _ (by unfold selectedIndex; omega)]
  unfold runPopupMenu selectedIndex
  simp only [he, hdc, hSD, Bool.true_and, decide_eq_true_eq]
  split_ifs with h1 h2 h3 h4 h5 h6 h7 <;> dsimp only <;>
    simp only [reduceCtorEq, false_iff, true_iff, ne_eq, not_not, not_true_eq_false,
      not_false_eq_true, and_true, true_and] <;> omega

theorem runPopupMenu_up_step (cfg : PopupConfig) (e : Event) (m : PopupMenu)
    (hSD : cfg.SDCARD = true)
    (hM : cfg.MENU_MAX_DISPLAY_LINES ≤ 255) (hn : m.popupMenuItemsCount ≤ 255)
    (he : menuCase cfg e = MenuCase.up) (hinv : MenuInRange cfg m) :
    selectedIndex (runPopupMenu cfg e m).menu
        = (selectedIndex m + m.popupMenuItemsCount - 1) % m.popupMenuItemsCount
      ∧ ((runPopupMenu cfg e m).result = some cfg.STR_UPDATE_LIST
          ↔ (runPopupMenu cfg e m).menu.popupMenuOffset ≠ m.popupMenuOffset) := by
  have hdc := displayCount_eq cfg m hM hn
  have hM256 : cfg.MENU_MAX_DISPLAY_LINES % 256 = cfg.MENU_MAX_DISPLAY_LINES :=
    Nat.mod_eq_of_lt (by omega)
  unfold MenuInRange at hinv
  obtain ⟨hs, ho⟩ := hinv
  obtain ⟨hd1, hd2, hd3⟩ := min_facts m.popupMenuItemsCount cfg.MENU_MAX_DISPLAY_LINES
  have hmm : min (min m.popupMenuItemsCount cfg.MENU_MAX_DISPLAY_LINES)
      cfg.MENU_MAX_DISPLAY_LINES = min m.popupMenuItemsCount cfg.MENU_MAX_DISPLAY_LINES :=
    Nat.min_eq_left hd2
  have hitem : ((((min m.popupMenuItemsCount cfg.MENU_MAX_DISPLAY_LINES : Nat) : Int) - 1)
      % 256).toNat = min m.popupMenuItemsCount cfg.MENU_MAX_DISPLAY_LINES - 1 := by
    have := uint8_sub (min m.popupMenuItemsCount cfg.MENU_MAX_DISPLAY_LINES) 1
      (by omega) (by omega)
    rw [Nat.cast_one] at this
    exact this
  have hoff : ((((m.popupMenuItemsCount : Int)
      - ((min m.popupMenuItemsCount cfg.MENU_MAX_DISPLAY_LINES : Nat) : Int)) % 65536)).toNat
      = m.popupMenuItemsCount - min m.popupMenuItemsCount cfg.MENU_MAX_DISPLAY_LINES :=
    uint16_sub _ _ hd1 (by omega)
  rw [pred_mod_eq _ _ (by unfold selectedIndex; omega)]
  unfold runPopupMenu selectedIndex
  simp only [he, hdc, hM256, hmm, hitem, hoff, hSD, Bool.true_and, decide_eq_true_eq]
  split_ifs with h1 h2 h3 h4 h5 h6 h7 <;> dsimp only <;>
    simp only [reduceCtorEq, false_iff, true_iff, ne_eq, not_not, not_true_eq_false,
      not_false_eq_true, and_true, true_and] <;> omega

theorem runPopupMenuEvents_cons (cfg : PopupConfig) (e : Event) (events : List Event)
    (m : PopupMenu) :
    runPopupMenuEvents cfg (e :: events) m
      = runPopupMenuEvents cfg events (runPopupMenu cfg e m).menu := rfl

theorem menuInRange_events (cfg : PopupConfig) (events : List Event) (m : PopupMenu)
    (hM : cfg.MENU_MAX_DISPLAY_LINES ≤ 255) (hn : m.popupMenuItemsCount ≤ 255)
    (hev : ∀ e ∈ events, menuCase cfg e = MenuCase.up ∨ menuCase cfg e = MenuCase.down
      ∨ menuCase cfg e = MenuCase.unhandled)
    (hinv : MenuInRange cfg m) :
    (runPopupMenuEvents cfg events m).popupMenuItemsCount = m.popupMenuItemsCount
    ∧ MenuInRange cfg (runPopupMenuEvents cfg events m) := by
  induction events generalizing m with
  | nil => exact ⟨rfl, hinv⟩
  | cons e events ih =>
    obtain ⟨hc, hi⟩ := menuInRange_step cfg e m hM hn (hev e (List.mem_cons_self e events)) hinv
    obtain ⟨hc2, hi2⟩ := ih (runPopupMenu cfg e m).menu (by rw [hc]; exact hn)
      (fun x hx => hev x (List.mem_cons_of_mem e hx)) hi
    rw [runPopupMenuEvents_cons]
    exact ⟨hc2.trans hc, hi2⟩

theorem selectedIndex_down_events (cfg : PopupConfig) (downs : List Event) (m : PopupMenu)
    (hSD : cfg.SDCARD = true)
    (hM : cfg.MENU_MAX_DISPLAY_LINES ≤ 255) (hn : m.popupMenuItemsCount ≤ 255)
    (hev : ∀ e ∈ downs, menuCase cfg e = MenuCase.down)
    (hinv : MenuInRange cfg m) :
    selectedIndex (runPopupMenuEvents cfg downs m)
      = (selectedIndex m + downs.length) % m.popupMenuItemsCount := by
  induction downs generalizing m with
  | nil =>
    have hlt : selectedIndex m < m.popupMenuItemsCount := by
      unfold MenuInRange at hinv
      unfold selectedIndex
      omega
    simp only [runPopupMenuEvents, List.foldl_nil, List.length_nil, Nat.add_zero]
    exact (Nat.mod_eq_of_lt hlt).symm
  | cons e downs ih =>
    have he := hev e (List.mem_cons_self e downs)
    obtain ⟨hc, hi⟩ := menuInRange_step cfg e m hM hn (Or.inr (Or.inl he)) hinv
    have hstep := (runPopupMenu_down_step cfg e m hSD hM hn he hinv).1
    rw [runPopupMenuEvents_cons,
      ih (runPopupMenu cfg e m).menu (by rw [hc]; exact hn)
        (fun x hx => hev x (List.mem_cons_of_mem e hx)) hi,
      hc, hstep, Nat.mod_add_mod, List.length_cons]
    congr 1
    omega

/-! ## C13: the selection stays inside the menu -/

/-- C13.  Let `MENU_MAX_DISPLAY_LINES` fit a `uint8_t` and let the popup menu
hold `n <= 255` items.  The predicate `s_menu_item < min(n,
MENU_MAX_DISPLAY_LINES)` and `popupMenuOffset + min(n, MENU_MAX_DISPLAY_LINES)
<= n` (it forces `n >= 1`) is kept by one call of `runPopupMenu`, and so by any
number of calls, on events that do not close the menu, and `n` is unchanged;
with it the selected absolute index is below `n` and the row index below
`MENU_MAX_DISPLAY_LINES`.  This holds with `SDCARD` defined or not. -/
theorem popupMenu_selection_in_range (cfg : PopupConfig) (events : List Event)
    (m : PopupMenu)
    (hM : cfg.MENU_MAX_DISPLAY_LINES ≤ 255) (hn : m.popupMenuItemsCount ≤ 255)
    (hev : ∀ e ∈ events, keepsMenuOpen cfg e)
    (hinv : MenuInRange cfg m) :
    (∀ e, keepsMenuOpen cfg e →
        (runPopupMenu cfg e m).menu.popupMenuItemsCount = m.popupMenuItemsCount
        ∧ (runPopupMenu cfg e m).menu.s_menu_item
            < min m.popupMenuItemsCount cfg.MENU_MAX_DISPLAY_LINES
        ∧ (runPopupMenu cfg e m).menu.popupMenuOffset
            + min m.popupMenuItemsCount cfg.MENU_MAX_DISPLAY_LINES ≤ m.popupMenuItemsCount)
      ∧ (runPopupMenuEvents cfg events m).popupMenuItemsCount = m.popupMenuItemsCount
      ∧ MenuInRange cfg (runPopupMenuEvents cfg events m)
      ∧ (runPopupMenuEvents cfg events m).popupMenuOffset
          + (runPopupMenuEvents cfg events m).s_menu_item < m.popupMenuItemsCount
      ∧ (runPopupMenuEvents cfg events m).s_menu_item < cfg.MENU_MAX_DISPLAY_LINES := by
  obtain ⟨hc, hi⟩ := menuInRange_events cfg events m hM hn hev hinv
  refine ⟨?_, hc, hi, ?_, ?_⟩
  · intro e he
    obtain ⟨hc1, hi1⟩ := menuInRange_step cfg e m hM hn he hinv
    unfold MenuInRange at hi1
    rw [hc1] at hi1
    exact ⟨hc1, hi1.1, hi1.2⟩
  · unfold MenuInRange at hi
    rw [hc] at hi
    omega
  · unfold MenuInRange at hi
    omega

/-- C13 at the sample menu after DOWN, DOWN, DOWN, DOWN, UP and an unhandled
event. -/
theorem popupMenu_selection_in_range_witness :
    (sampleConfig.MENU_MAX_DISPLAY_LINES ≤ 255 ∧ sampleMenu.popupMenuItemsCount ≤ 255
      ∧ (∀ e ∈ [Event.EVT_KEY_FIRST_KEY_DOWN, Event.EVT_KEY_REPT_KEY_DOWN,
            Event.EVT_KEY_REPT_KEY_DOWN, Event.EVT_ROTARY_RIGHT, Event.EVT_KEY_FIRST_KEY_UP,
            Event.other 7], keepsMenuOpen sampleConfig e)
      ∧ MenuInRange sampleConfig sampleMenu)
    ∧ MenuInRange sampleConfig
        (runPopupMenuEvents sampleConfig
          [Event.EVT_KEY_FIRST_KEY_DOWN, Event.EVT_KEY_REPT_KEY_DOWN,
            Event.EVT_KEY_REPT_KEY_DOWN, Event.EVT_ROTARY_RIGHT, Event.EVT_KEY_FIRST_KEY_UP,
            Event.other 7] sampleMenu) :=
  ⟨⟨by decide, by decide, by decide, by decide⟩,
   (popupMenu_selection_in_range sampleConfig
      [Event.EVT_KEY_FIRST_KEY_DOWN, Event.EVT_KEY_REPT_KEY_DOWN,
        Event.EVT_KEY_REPT_KEY_DOWN, Event.EVT_ROTARY_RIGHT, Event.EVT_KEY_FIRST_KEY_UP,
        Event.other 7] sampleMenu (by decide) (by decide) (by decide) (by decide)).2.2.1⟩

/-! ## C14: navigation is cyclic -/

/-- C14.  Let `SDCARD` be defined, `MENU_MAX_DISPLAY_LINES` fit a `uint8_t`, and
the popup menu hold `n <= 255` items in a state that satisfies
`s_menu_item < min(n, MENU_MAX_DISPLAY_LINES)` and `popupMenuOffset + min(n,
MENU_MAX_DISPLAY_LINES) <= n`.  A `KEY_DOWN` event takes the absolute index
`a = popupMenuOffset + s_menu_item` to `(a + 1) mod n`, a `KEY_UP` event takes
it to `(a + n - 1) mod n`, and on both `runPopupMenu` returns `STR_UPDATE_LIST`
exactly when `popupMenuOffset` has changed.  After `k` `KEY_DOWN` events the
index is `(a + k) mod n`; so from offset 0, row 0 the first `n` states select
the items `0, 1, ..., n - 1` in turn and the `n`-th `KEY_DOWN` leads back to
offset 0, row 0. -/
theorem popupMenu_navigation_cyclic (cfg : PopupConfig) (m : PopupMenu)
    (hSD : cfg.SDCARD = true)
    (hM : cfg.MENU_MAX_DISPLAY_LINES ≤ 255) (hn : m.popupMenuItemsCount ≤ 255)
    (hinv : MenuInRange cfg m) :
    (∀ e, menuCase cfg e = MenuCase.down →
        selectedIndex (runPopupMenu cfg e m).menu
          = (selectedIndex m + 1) % m.popupMenuItemsCount)
      ∧ (∀ e, menuCase cfg e = MenuCase.up →
        selectedIndex (runPopupMenu cfg e m).menu
          = (selectedIndex m + m.popupMenuItemsCount - 1) % m.popupMenuItemsCount)
      ∧ (∀ e, menuCase cfg e = MenuCase.up ∨ menuCase cfg e = MenuCase.down →
        ((runPopupMenu cfg e m).result = some cfg.STR_UPDATE_LIST
          ↔ (runPopupMenu cfg e m).menu.popupMenuOffset ≠ m.popupMenuOffset))
      ∧ (∀ downs : List Event, (∀ e ∈ downs, menuCase cfg e = MenuCase.down) →
        selectedIndex (runPopupMenuEvents cfg downs m)
          = (selectedIndex m + downs.length) % m.popupMenuItemsCount)
      ∧ (m.popupMenuOffset = 0 → m.s_menu_item = 0 →
        (List.range m.popupMenuItemsCount).map (fun k => selectedIndex
            (runPopupMenuEvents cfg (List.replicate k Event.EVT_KEY_FIRST_KEY_DOWN) m))
          = List.range m.popupMenuItemsCount
        ∧ (runPopupMenuEvents cfg
            (List.replicate m.popupMenuItemsCount Event.EVT_KEY_FIRST_KEY_DOWN) m).popupMenuOffset
          = 0
        ∧ (runPopupMenuEvents cfg
            (List.replicate m.popupMenuItemsCount Event.EVT_KEY_FIRST_KEY_DOWN) m).s_menu_item
          = 0) := by
  have hrep : ∀ k : Nat, ∀ e ∈ List.replicate k Event.EVT_KEY_FIRST_KEY_DOWN,
      menuCase cfg e = MenuCase.down := by
    intro k e he
    rw [List.eq_of_mem_replicate he]
    rfl
  have hpos : 0 < m.popupMenuItemsCount := by
    unfold MenuInRange at hinv
    omega
  refine ⟨?_, ?_, ?_, ?_, ?_⟩
  · intro e he
    exact (runPopupMenu_down_step cfg e m hSD hM hn he hinv).1
  · intro e he
    exact (runPopupMenu_up_step cfg e m hSD hM hn he hinv).1
  · intro e he
    rcases he with he | he
    · exact (runPopupMenu_up_step cfg e m hSD hM hn he hinv).2
    · exact (runPopupMenu_down_step cfg e m hSD hM hn he hinv).2
  · intro downs hd
    exact selectedIndex_down_events cfg downs m hSD hM hn hd hinv
  · intro hoff hrow
    have hzero : selectedIndex m = 0 := by
      unfold selectedIndex
      omega
    have hidx : ∀ k : Nat, selectedIndex
        (runPopupMenuEvents cfg (List.replicate k Event.EVT_KEY_FIRST_KEY_DOWN) m)
        = k % m.popupMenuItemsCount := by
      intro k
      rw [selectedIndex_down_events cfg _ m hSD hM hn (hrep k) hinv, hzero,
        List.length_replicate, Nat.zero_add]
    have hback := hidx m.popupMenuItemsCount
    rw [Nat.mod_self] at hback
    unfold selectedIndex at hback
    refine ⟨?_, by omega, by omega⟩
    refine (List.map_congr_left ?_).trans (List.map_id _)
    intro k hk
    rw [hidx k]
    exact Nat.mod_eq_of_lt (List.mem_range.mp hk)

/-- C14 at the sample menu (ten items, six rows), from the top of the list. -/
theorem popupMenu_navigation_cyclic_witness :
    (sampleConfig.SDCARD = true ∧ sampleConfig.MENU_MAX_DISPLAY_LINES ≤ 255
      ∧ sampleMenuTop.popupMenuItemsCount ≤ 255 ∧ MenuInRange sampleConfig sampleMenuTop
      ∧ sampleMenuTop.popupMenuOffset = 0 ∧ sampleMenuTop.s_menu_item = 0)
    ∧ ((List.range sampleMenuTop.popupMenuItemsCount).map (fun k => selectedIndex
          (runPopupMenuEvents sampleConfig
            (List.replicate k Event.EVT_KEY_FIRST_KEY_DOWN) sampleMenuTop))
        = List.range sampleMenuTop.popupMenuItemsCount
      ∧ (runPopupMenuEvents sampleConfig
          (List.replicate sampleMenuTop.popupMenuItemsCount Event.EVT_KEY_FIRST_KEY_DOWN)
          sampleMenuTop).popupMenuOffset = 0
      ∧ (runPopupMenuEvents sampleConfig
          (List.replicate sampleMenuTop.popupMenuItemsCount Event.EVT_KEY_FIRST_KEY_DOWN)
          sampleMenuTop).s_menu_item = 0) :=
  ⟨⟨rfl, by decide, by decide, by decide, rfl, rfl⟩,
   (popupMenu_navigation_cyclic sampleConfig sampleMenuTop rfl (by decide) (by decide)
      (by decide)).2.2.2.2 rfl rfl⟩

end EdgeTX
